import Mathlib

/-!
Shallow embedding of the Phit local-first replication engine:
the AsyncStorage wrapper (src/services/storage.ts), the data service facade
and the sync engine (src/services/dataService.ts), over the domain types of
src/types/index.ts and src/types/sync.ts.

Modelling conventions:
* epoch-millisecond timestamps are Nat; each call that reads the clock
  (Date.now in the source) takes the reading as an explicit `now` argument;
* generated random identifiers (generateId in the source) are passed in as
  explicit string arguments;
* the underlying AsyncStorage primitives either succeed or throw; a thrown
  exception is modelled explicitly (RawResult at the generic helper level,
  and a per-key write-failure oracle `Env.wfail` at the slot level, since
  the wrapper catches every exception and degrades to null/false);
* remote Firestore calls are modelled by oracles: an upload outcome per
  queue item, and a remote document set per collection with an optional
  thrown error per range query;
* numbers that the code never computes with (reps, loads, RPE) are carried
  as opaque Nat/Option Nat data.
-/

namespace Phit

/-! Domain types (src/types/index.ts). -/

inductive LoadUnit
  | lb
  | kg
deriving DecidableEq, Repr

structure SetLog where
  setNumber : Nat
  reps : Option Nat
  load : Option Nat
  loadUnit : LoadUnit
  rpe : Option Nat
deriving DecidableEq, Repr

structure ExerciseLog where
  exerciseId : String
  isComplete : Bool
  sets : List SetLog
deriving DecidableEq, Repr

structure WorkoutSession where
  id : String
  workoutId : String
  userId : String
  startedAt : Nat
  completedAt : Option Nat
  exerciseLogs : List ExerciseLog
deriving DecidableEq, Repr

inductive SectionName
  | Warmup
  | Rehab
  | Strength
  | Cooldown
deriving DecidableEq, Repr

structure Exercise where
  id : String
  name : String
  youtubeVideoId : String
  notes : String
  defaultSets : Nat
deriving DecidableEq, Repr

structure WorkoutSection where
  id : String
  name : SectionName
  exercises : List Exercise
deriving DecidableEq, Repr

structure Workout where
  id : String
  name : String
  sections : List WorkoutSection
deriving DecidableEq, Repr

structure UserPreferences where
  defaultLoadUnit : LoadUnit
  autoScrollOnComplete : Bool
deriving DecidableEq, Repr

/-! Sync types (src/types/sync.ts). -/

inductive SyncCollection
  | preferences
  | templates
  | sessions
deriving DecidableEq, Repr

inductive SyncAction
  | upsert
  | delete
deriving DecidableEq, Repr

/-- The `data: unknown` payload of a queue item is in practice one of the
three synced domain values. -/
inductive Payload
  | prefs (p : UserPreferences)
  | template (w : Workout)
  | session (s : WorkoutSession)
deriving DecidableEq, Repr

structure SyncQueueItem where
  id : String
  collection : SyncCollection
  documentId : String
  action : SyncAction
  data : Option Payload
  createdAt : Nat
  retryCount : Nat
deriving DecidableEq, Repr

structure SyncedData (α : Type) where
  data : α
  lastModified : Nat
  syncedAt : Option Nat
deriving DecidableEq, Repr

structure SyncError where
  collection : SyncCollection
  documentId : String
  message : String
  retryable : Bool
deriving DecidableEq, Repr

inductive SyncStatus
  | idle
  | syncing
  | error
  | offline
deriving DecidableEq, Repr

structure SyncResult where
  success : Bool
  itemsUploaded : Nat
  itemsDownloaded : Nat
  errors : List SyncError
deriving DecidableEq, Repr

/-! Generic AsyncStorage helpers (storage.ts getItem / setItem / removeItem).
The underlying primitive either returns a value or throws. -/

/-- Outcome of one underlying AsyncStorage primitive call: a returned value,
or a thrown exception carrying a message. -/
inductive RawResult (α : Type)
  | ok (value : α)
  | exn (msg : String)
deriving DecidableEq, Repr

/-- getItem of storage.ts: awaits AsyncStorage.getItem and JSON.parses the
result inside a try/catch; a throw from either step, or a missing key,
yields null. `parse` returns none exactly when JSON.parse would throw on
the persisted text. -/
def getItem {T : Type} (raw : RawResult (Option String))
    (parse : String → Option T) : Option T :=
  match raw with
  | .exn _ => none
  | .ok none => none
  | .ok (some s) =>
    match parse s with
    | none => none
    | some v => some v

/-- setItem of storage.ts: JSON.stringify then AsyncStorage.setItem inside a
try/catch; a throw yields false, otherwise true. -/
def setItem (rawWrite : RawResult Unit) : Bool :=
  match rawWrite with
  | .exn _ => false
  | .ok _ => true

/-- removeItem of storage.ts: AsyncStorage.removeItem inside a try/catch; a
throw yields false, otherwise true. -/
def removeItem (rawRemove : RawResult Unit) : Bool :=
  match rawRemove with
  | .exn _ => false
  | .ok _ => true

/-! Slot-level view of the persisted key space (STORAGE_KEYS of storage.ts).
Each slot holds the JSON-decoded value of its key, none when absent. A
per-key oracle says whether a write to that key fails (throws in the
underlying store); reads of a present slot are assumed to round-trip. -/

inductive StorageKey
  | userId
  | preferences
  | templates
  | sessions
  | currentSession
  | syncQueue
  | lastSyncTimestamp
deriving DecidableEq, Repr

structure Store where
  userId : Option String
  preferences : Option (SyncedData UserPreferences)
  templates : Option (SyncedData (List Workout))
  sessions : Option (SyncedData (List WorkoutSession))
  currentSession : Option WorkoutSession
  syncQueue : Option (List SyncQueueItem)
  lastSyncTimestamp : Option Nat
deriving DecidableEq, Repr

/-- Write-failure oracle: wfail k is true when a write (or remove) on key k
throws in the underlying store during this execution. -/
structure Env where
  wfail : StorageKey → Bool

/-- Environment in which every storage write succeeds. -/
def noFail : Env := ⟨fun _ => false⟩

namespace Storage

def getUserId (st : Store) : Option String :=
  st.userId

def setUserId (e : Env) (st : Store) (userId : String) : Store × Bool :=
  if e.wfail .userId then (st, false)
  else ({ st with userId := some userId }, true)

def DEFAULT_PREFERENCES : UserPreferences :=
  { defaultLoadUnit := .lb, autoScrollOnComplete := true }

def getPreferences (st : Store) (now : Nat) : SyncedData UserPreferences :=
  match st.preferences with
  | none => { data := DEFAULT_PREFERENCES, lastModified := now, syncedAt := none }
  | some d => d

def setPreferences (e : Env) (now : Nat) (st : Store)
    (preferences : UserPreferences) : Store × Bool :=
  let synced : SyncedData UserPreferences :=
    { data := preferences, lastModified := now, syncedAt := none }
  if e.wfail .preferences then (st, false)
  else ({ st with preferences := some synced }, true)

def getTemplates (st : Store) (now : Nat) : SyncedData (List Workout) :=
  match st.templates with
  | none => { data := [], lastModified := now, syncedAt := none }
  | some d => d

def setTemplates (e : Env) (now : Nat) (st : Store)
    (templates : List Workout) : Store × Bool :=
  let synced : SyncedData (List Workout) :=
    { data := templates, lastModified := now, syncedAt := none }
  if e.wfail .templates then (st, false)
  else ({ st with templates := some synced }, true)

def addTemplate (e : Env) (now : Nat) (st : Store) (template : Workout) :
    Store × Bool :=
  let current := getTemplates st now
  setTemplates e now st (current.data ++ [template])

/-- Replace the first list element whose id matches, none when absent; this
is the findIndex-then-assign step of updateTemplate in structural form. -/
def updateFirstTemplate (template : Workout) :
    List Workout → Option (List Workout)
  | [] => none
  | w :: rest =>
    if w.id == template.id then some (template :: rest)
    else (updateFirstTemplate template rest).map (w :: ·)

def updateTemplate (e : Env) (now : Nat) (st : Store) (template : Workout) :
    Store × Bool :=
  let current := getTemplates st now
  match updateFirstTemplate template current.data with
  | none => (st, false)
  | some l => setTemplates e now st l

def deleteTemplate (e : Env) (now : Nat) (st : Store) (templateId : String) :
    Store × Bool :=
  let current := getTemplates st now
  setTemplates e now st (current.data.filter (fun t => t.id != templateId))

def getSessions (st : Store) (now : Nat) : SyncedData (List WorkoutSession) :=
  match st.sessions with
  | none => { data := [], lastModified := now, syncedAt := none }
  | some d => d

def setSessions (e : Env) (now : Nat) (st : Store)
    (sessions : List WorkoutSession) : Store × Bool :=
  let synced : SyncedData (List WorkoutSession) :=
    { data := sessions, lastModified := now, syncedAt := none }
  if e.wfail .sessions then (st, false)
  else ({ st with sessions := some synced }, true)

def addSession (e : Env) (now : Nat) (st : Store) (session : WorkoutSession) :
    Store × Bool :=
  let current := getSessions st now
  setSessions e now st (current.data ++ [session])

/-- Replace the first session with matching id (findIndex-then-assign of
updateSession in structural form). -/
def updateFirstSession (session : WorkoutSession) :
    List WorkoutSession → Option (List WorkoutSession)
  | [] => none
  | s :: rest =>
    if s.id == session.id then some (session :: rest)
    else (updateFirstSession session rest).map (s :: ·)

def updateSession (e : Env) (now : Nat) (st : Store) (session : WorkoutSession) :
    Store × Bool :=
  let current := getSessions st now
  match updateFirstSession session current.data with
  | none => setSessions e now st (current.data ++ [session])
  | some l => setSessions e now st l

def getCurrentSession (st : Store) : Option WorkoutSession :=
  st.currentSession

/-- setCurrentSession stores the session, or removes the key when given
null; both paths go through the same underlying key. -/
def setCurrentSession (e : Env) (st : Store) (session : Option WorkoutSession) :
    Store × Bool :=
  if e.wfail .currentSession then (st, false)
  else ({ st with currentSession := session }, true)

def getSyncQueue (st : Store) : List SyncQueueItem :=
  st.syncQueue.getD []

def setSyncQueue (e : Env) (st : Store) (queue : List SyncQueueItem) :
    Store × Bool :=
  if e.wfail .syncQueue then (st, false)
  else ({ st with syncQueue := some queue }, true)

def addToSyncQueue (e : Env) (st : Store) (item : SyncQueueItem) :
    Store × Bool :=
  setSyncQueue e st (getSyncQueue st ++ [item])

def removeFromSyncQueue (e : Env) (st : Store) (itemId : String) :
    Store × Bool :=
  setSyncQueue e st ((getSyncQueue st).filter (fun it => it.id != itemId))

/-- Replace the first queue item with matching id by its patched form
(findIndex-then-assign of updateSyncQueueItem in structural form); the
patch models spreading the Partial update over the found item. -/
def updateFirstQueueItem (itemId : String) (patch : SyncQueueItem → SyncQueueItem) :
    List SyncQueueItem → Option (List SyncQueueItem)
  | [] => none
  | it :: rest =>
    if it.id == itemId then some (patch it :: rest)
    else (updateFirstQueueItem itemId patch rest).map (it :: ·)

def updateSyncQueueItem (e : Env) (st : Store) (itemId : String)
    (patch : SyncQueueItem → SyncQueueItem) : Store × Bool :=
  match updateFirstQueueItem itemId patch (getSyncQueue st) with
  | none => (st, false)
  | some q => setSyncQueue e st q

def getLastSyncTimestamp (st : Store) : Nat :=
  st.lastSyncTimestamp.getD 0

def setLastSyncTimestamp (e : Env) (st : Store) (timestamp : Nat) :
    Store × Bool :=
  if e.wfail .lastSyncTimestamp then (st, false)
  else ({ st with lastSyncTimestamp := some timestamp }, true)

end Storage

/-! Data Service facade (first half of src/services/dataService.ts). -/

namespace DataService

/-- queueForSync: build a SyncQueueItem (its id comes from generateId, here
the explicit argument qid) and append it to the persisted queue. -/
def queueForSync (e : Env) (now : Nat) (qid : String) (st : Store)
    (collection : SyncCollection) (documentId : String) (action : SyncAction)
    (data : Option Payload) : Store × Bool :=
  let queueItem : SyncQueueItem :=
    { id := qid, collection := collection, documentId := documentId,
      action := action, data := data, createdAt := now, retryCount := 0 }
  Storage.addToSyncQueue e st queueItem

def getPreferences (st : Store) (now : Nat) : UserPreferences :=
  (Storage.getPreferences st now).data

/-- savePreferences: commit locally, then queue an upsert — but only when
the stored user id is truthy. The source's `if (userId)` is a JS
truthiness test, falsy both for a missing id (null) and for the empty
string. -/
def savePreferences (e : Env) (now : Nat) (qid : String) (st : Store)
    (preferences : UserPreferences) : Store :=
  let st1 := (Storage.setPreferences e now st preferences).1
  match Storage.getUserId st1 with
  | some userId =>
    if userId != "" then
      (queueForSync e now qid st1 .preferences userId .upsert
        (some (.prefs preferences))).1
    else st1
  | none => st1

/-- saveTemplate: assign an id when the incoming one is empty (falsy), add
or update locally, then queue an upsert of the committed template. -/
def saveTemplate (e : Env) (now : Nat) (newId qid : String) (st : Store)
    (template : Workout) : Store × Workout :=
  let templateWithId :=
    if template.id != "" then template else { template with id := newId }
  let existing := Storage.getTemplates st now
  let st1 :=
    if (existing.data.findIdx? (fun t => t.id == templateWithId.id)).isNone then
      (Storage.addTemplate e now st templateWithId).1
    else
      (Storage.updateTemplate e now st templateWithId).1
  let st2 := (queueForSync e now qid st1 .templates templateWithId.id .upsert
    (some (.template templateWithId))).1
  (st2, templateWithId)

def deleteTemplate (e : Env) (now : Nat) (qid : String) (st : Store)
    (templateId : String) : Store :=
  let st1 := (Storage.deleteTemplate e now st templateId).1
  (queueForSync e now qid st1 .templates templateId .delete none).1

/-- startSession: build a fresh in-progress session and store it in the
current-session slot; nothing is queued for sync here. -/
def startSession (e : Env) (now : Nat) (newId : String) (st : Store)
    (workoutId : String) (exercises : List (String × Nat)) :
    Store × WorkoutSession :=
  let userId := (Storage.getUserId st).getD "local-user"
  let session : WorkoutSession :=
    { id := newId, workoutId := workoutId, userId := userId,
      startedAt := now, completedAt := none,
      exerciseLogs := exercises.map (fun ex =>
        { exerciseId := ex.1, isComplete := false,
          sets := (List.range ex.2).map (fun i =>
            { setNumber := i + 1, reps := none, load := none,
              loadUnit := .lb, rpe := none }) }) }
  ((Storage.setCurrentSession e st (some session)).1, session)

/-- updateCurrentSession: overwrite the current-session slot; nothing is
queued for sync here. -/
def updateCurrentSession (e : Env) (st : Store) (session : WorkoutSession) :
    Store :=
  (Storage.setCurrentSession e st (some session)).1

/-- completeSession: stamp completedAt, append to session history, clear the
current-session slot, then queue an upsert of the completed session. -/
def completeSession (e : Env) (now : Nat) (qid : String) (st : Store)
    (session : WorkoutSession) : Store × WorkoutSession :=
  let completed : WorkoutSession := { session with completedAt := some now }
  let st1 := (Storage.addSession e now st completed).1
  let st2 := (Storage.setCurrentSession e st1 none).1
  let st3 := (queueForSync e now qid st2 .sessions completed.id .upsert
    (some (.session completed))).1
  (st3, completed)

def discardCurrentSession (e : Env) (st : Store) : Store :=
  (Storage.setCurrentSession e st none).1

end DataService

/-! Sync engine (second half of src/services/dataService.ts). -/

namespace SyncService

def MAX_RETRY_COUNT : Nat := 5

/-- Ambient preflight inputs: Firebase configuration (isFirebaseEnabled and
the db handle), the NetInfo connectivity probe, and the authenticated
Firebase user's uid when present. -/
structure SyncEnv where
  firebaseEnabled : Bool
  dbPresent : Bool
  isConnected : Bool
  currentUser : Option String
deriving DecidableEq, Repr

structure CanSyncResult where
  canSync : Bool
  reason : Option String
deriving DecidableEq, Repr

def canSync (c : SyncEnv) : CanSyncResult :=
  if !(c.firebaseEnabled && c.dbPresent) then
    { canSync := false, reason := some "Firebase not configured" }
  else if !c.isConnected then
    { canSync := false, reason := some "No network connection" }
  else if c.currentUser.isNone then
    { canSync := false, reason := some "User not authenticated" }
  else
    { canSync := true, reason := none }

def collectionName : SyncCollection → String
  | .preferences => "preferences"
  | .templates => "templates"
  | .sessions => "sessions"

def getDocPath (userId : String) (c : SyncCollection) (documentId : String) :
    String :=
  if c = .preferences then
    "users/" ++ userId ++ "/preferences/settings"
  else
    "users/" ++ userId ++ "/" ++ collectionName c ++ "/" ++ documentId

/-- processSyncItem: the remote setDoc/deleteDoc call is abstracted by the
oracle `up`, which returns none on success and the thrown error message on
failure (the catch branch of the source). -/
def processSyncItem (c : SyncEnv) (up : SyncQueueItem → Option String)
    (item : SyncQueueItem) : Bool × Option String :=
  if !c.dbPresent || c.currentUser.isNone then
    (false, some "Firebase not available")
  else
    match up item with
    | none => (true, none)
    | some msg => (false, some msg)

structure UploadOutcome where
  store : Store
  uploaded : Nat
  errors : List SyncError
  attempts : List SyncQueueItem

/-- The for-loop body of processQueue over the queue snapshot taken at cycle
start; attempts records every item for which a remote call was made. -/
def processQueueAux (e : Env) (c : SyncEnv) (up : SyncQueueItem → Option String) :
    List SyncQueueItem → Store → Nat → List SyncError → List SyncQueueItem →
    UploadOutcome
  | [], st, uploaded, errors, attempts => ⟨st, uploaded, errors, attempts⟩
  | item :: rest, st, uploaded, errors, attempts =>
    let result := processSyncItem c up item
    if result.1 then
      processQueueAux e c up rest (Storage.removeFromSyncQueue e st item.id).1
        (uploaded + 1) errors (attempts ++ [item])
    else
      let newRetryCount := item.retryCount + 1
      if MAX_RETRY_COUNT ≤ newRetryCount then
        processQueueAux e c up rest (Storage.removeFromSyncQueue e st item.id).1
          uploaded
          (errors ++ [{ collection := item.collection,
                        documentId := item.documentId,
                        message := result.2.getD "Max retries exceeded",
                        retryable := false }])
          (attempts ++ [item])
      else
        processQueueAux e c up rest
          (Storage.updateSyncQueueItem e st item.id
            (fun it => { it with retryCount := newRetryCount })).1
          uploaded
          (errors ++ [{ collection := item.collection,
                        documentId := item.documentId,
                        message := result.2.getD "Sync failed",
                        retryable := true }])
          (attempts ++ [item])

def processQueue (e : Env) (c : SyncEnv) (up : SyncQueueItem → Option String)
    (st : Store) : UploadOutcome :=
  let queue := Storage.getSyncQueue st
  if queue.isEmpty then ⟨st, 0, [], []⟩
  else processQueueAux e c up queue st 0 [] []

/-! Download phase. -/

/-- A remote document: the Firestore document id, the domain fields (what
remains after stripping the sync metadata), and the two metadata fields
when present. -/
structure RemoteDoc (α : Type) where
  id : String
  body : α
  syncedAt : Option Nat
  lastModified : Option Nat
deriving DecidableEq, Repr

/-- Stripping the sync metadata fields from a pulled document leaves its
domain fields. -/
def stripMeta {α : Type} (d : RemoteDoc α) : α :=
  d.body

/-- Remote store contents plus an optional thrown error per range query
(getDocs throwing inside the try block). -/
structure RemoteEnv where
  sessionDocs : List (RemoteDoc WorkoutSession)
  templateDocs : List (RemoteDoc Workout)
  sessionsQueryThrows : Option String
  templatesQueryThrows : Option String

/-- Firestore range query semantics over a modification-timestamp field:
only documents carrying the field with a strictly greater value are
returned. -/
def runQuery {α : Type} (docs : List (RemoteDoc α)) (watermark : Nat) :
    List (RemoteDoc α) :=
  docs.filter (fun d =>
    match d.lastModified with
    | some t => watermark < t
    | none => false)

def querySessions (r : RemoteEnv) (watermark : Nat) :
    Except String (List (RemoteDoc WorkoutSession)) :=
  match r.sessionsQueryThrows with
  | some msg => .error msg
  | none => .ok (runQuery r.sessionDocs watermark)

def queryTemplates (r : RemoteEnv) (watermark : Nat) :
    Except String (List (RemoteDoc Workout)) :=
  match r.templatesQueryThrows with
  | some msg => .error msg
  | none => .ok (runQuery r.templateDocs watermark)

/-- The per-collection merge loop of pullRemoteChanges, shared by the
sessions and templates branches of the source, which are textually
identical up to the collection: a returned document whose id matches no
local record id is appended stripped of metadata, any matching document is
skipped. -/
def mergeRemoteDocs {α : Type} (getId : α → String) :
    List (RemoteDoc α) → List α → Nat → Bool → List α × Nat × Bool
  | [], data, downloaded, updated => (data, downloaded, updated)
  | d :: rest, data, downloaded, updated =>
    if (data.findIdx? (fun x => getId x == d.id)).isNone then
      mergeRemoteDocs getId rest (data ++ [stripMeta d]) (downloaded + 1) true
    else
      mergeRemoteDocs getId rest data downloaded updated

structure DownloadOutcome where
  store : Store
  downloaded : Nat
  errors : List SyncError
  queries : List (SyncCollection × Nat)

/-- The sessions branch of pullRemoteChanges: skip when the snapshot is
empty, otherwise merge the returned documents into the local session list
and persist only when something was added. -/
def applySessionDocs (e : Env) (now : Nat) (st : Store)
    (sessionDocs : List (RemoteDoc WorkoutSession)) : Store × Nat :=
  if sessionDocs.isEmpty then (st, 0)
  else
    let currentSessions := Storage.getSessions st now
    let merged := mergeRemoteDocs (fun s => s.id) sessionDocs
      currentSessions.data 0 false
    if merged.2.2 then ((Storage.setSessions e now st merged.1).1, merged.2.1)
    else (st, merged.2.1)

/-- The templates branch of pullRemoteChanges, identical in structure to
the sessions branch. -/
def applyTemplateDocs (e : Env) (now : Nat) (st : Store)
    (templateDocs : List (RemoteDoc Workout)) : Store × Nat :=
  if templateDocs.isEmpty then (st, 0)
  else
    let currentTemplates := Storage.getTemplates st now
    let merged := mergeRemoteDocs (fun t => t.id) templateDocs
      currentTemplates.data 0 false
    if merged.2.2 then ((Storage.setTemplates e now st merged.1).1, merged.2.1)
    else (st, merged.2.1)

/-- pullRemoteChanges: query sessions then templates for documents newer
than the watermark, merging new ones into the local slots; a thrown query
error is caught and reported (always under the sessions collection, as in
the source's single catch), aborting the rest of the phase but keeping
effects already applied. queries records every range query issued with its
watermark. -/
def pullRemoteChanges (e : Env) (now : Nat) (c : SyncEnv) (r : RemoteEnv)
    (st : Store) : DownloadOutcome :=
  if !c.dbPresent || c.currentUser.isNone then ⟨st, 0, [], []⟩
  else
    let lastSync := Storage.getLastSyncTimestamp st
    match querySessions r lastSync with
    | .error msg =>
      ⟨st, 0,
        [{ collection := .sessions, documentId := "*", message := msg,
           retryable := true }],
        [(.sessions, lastSync)]⟩
    | .ok sessionDocs =>
      let step1 := applySessionDocs e now st sessionDocs
      match queryTemplates r lastSync with
      | .error msg =>
        ⟨step1.1, step1.2,
          [{ collection := .sessions, documentId := "*", message := msg,
             retryable := true }],
          [(.sessions, lastSync), (.templates, lastSync)]⟩
      | .ok templateDocs =>
        let step2 := applyTemplateDocs e now step1.1 templateDocs
        ⟨step2.1, step1.2 + step2.2, [],
          [(.sessions, lastSync), (.templates, lastSync)]⟩

structure CycleOutcome where
  store : Store
  result : SyncResult
  statusTrace : List SyncStatus
  uploadAttempts : List SyncQueueItem
  queries : List (SyncCollection × Nat)

/-- performSync: preflight gate, then upload phase, download phase, and
watermark advance. statusTrace records the setStatus calls of the run in
order; on the skip path the store is untouched and no remote interaction
happens. The source's outer catch is unreachable here because every
modelled phase returns instead of throwing. -/
def performSync (e : Env) (now : Nat) (c : SyncEnv)
    (up : SyncQueueItem → Option String) (r : RemoteEnv) (st : Store) :
    CycleOutcome :=
  let syncCheck := canSync c
  if !syncCheck.canSync then
    { store := st,
      result := { success := true, itemsUploaded := 0, itemsDownloaded := 0,
                  errors := [] },
      statusTrace :=
        [if syncCheck.reason == some "No network connection" then .offline
         else .idle],
      uploadAttempts := [], queries := [] }
  else
    let uploadResult := processQueue e c up st
    let downloadResult := pullRemoteChanges e now c r uploadResult.store
    let stFinal := (Storage.setLastSyncTimestamp e downloadResult.store now).1
    let allErrors := uploadResult.errors ++ downloadResult.errors
    let hasNonRetryableErrors := allErrors.any (fun er => !er.retryable)
    { store := stFinal,
      result := { success := allErrors.isEmpty,
                  itemsUploaded := uploadResult.uploaded,
                  itemsDownloaded := downloadResult.downloaded,
                  errors := allErrors },
      statusTrace := [.syncing, if hasNonRetryableErrors then .error else .idle],
      uploadAttempts := uploadResult.attempts,
      queries := downloadResult.queries }

/-! Status subscription channel: the module-level onStatusChange slot holds
at most one callback; callbacks are identified by a Nat token. -/

structure SubscriptionState where
  onStatusChange : Option Nat
deriving DecidableEq, Repr

/-- subscribeToSyncStatus: overwrite the single callback slot and return an
unsubscribe action that unconditionally clears whatever is registered at
the time it runs. -/
def subscribeToSyncStatus (callback : Nat) (_st : SubscriptionState) :
    SubscriptionState × (SubscriptionState → SubscriptionState) :=
  ({ onStatusChange := some callback },
   fun cur => { cur with onStatusChange := none })

/-- setStatus notifies the registered callback when present; this returns
the identity of the callback that receives the notification. -/
def notifyTarget (st : SubscriptionState) : Option Nat :=
  st.onStatusChange

end SyncService

/-! Concrete instances used to evaluate the model on specific inputs. -/

def emptyStore : Store :=
  ⟨none, none, none, none, none, none, none⟩

def sampleSession : WorkoutSession :=
  { id := "s1", workoutId := "w1", userId := "u1", startedAt := 10,
    completedAt := none, exerciseLogs := [] }

def sampleSession2 : WorkoutSession :=
  { id := "s2", workoutId := "w1", userId := "u1", startedAt := 20,
    completedAt := none, exerciseLogs := [] }

def sampleTemplate : Workout :=
  { id := "t1", name := "Leg Day", sections := [] }

/-- Environment in which exactly the writes to the session-history key
throw. -/
def failSessionsEnv : Env :=
  ⟨fun k => k == .sessions⟩

def onlineEnv : SyncService.SyncEnv :=
  { firebaseEnabled := true, dbPresent := true, isConnected := true,
    currentUser := some "u1" }

def offlineEnv : SyncService.SyncEnv :=
  { firebaseEnabled := true, dbPresent := true, isConnected := false,
    currentUser := some "u1" }

def scenarioItem : SyncQueueItem :=
  { id := "q1", collection := .templates, documentId := "t1",
    action := .upsert, data := none, createdAt := 0, retryCount := 0 }

def scenarioQueueStore : Store :=
  ⟨none, none, none, none, none, some [scenarioItem], none⟩

/-- Upload oracle for which every remote write throws. -/
def alwaysFailUpload : SyncQueueItem → Option String :=
  fun _ => some "network down"

/-- One upload-phase cycle over the store with the always-failing remote. -/
def cycleStep (s : Store) : Store :=
  (SyncService.processQueue noFail onlineEnv alwaysFailUpload s).store

def emptyRemote : SyncService.RemoteEnv :=
  ⟨[], [], none, none⟩

def sampleSessionDoc : SyncService.RemoteDoc WorkoutSession :=
  { id := "s2", body := sampleSession2, syncedAt := some 60,
    lastModified := some 50 }

def sampleTemplateDoc : SyncService.RemoteDoc Workout :=
  { id := "t1", body := sampleTemplate, syncedAt := some 60,
    lastModified := some 50 }

def sampleRemote : SyncService.RemoteEnv :=
  ⟨[sampleSessionDoc], [sampleTemplateDoc], none, none⟩

def sampleLocalStore : Store :=
  ⟨some "u1", none, none, some ⟨[sampleSession], 5, none⟩, none, some [], none⟩

/-! Helper lemmas. -/

theorem canSync_true_iff (c : SyncService.SyncEnv) :
    (SyncService.canSync c).canSync = true ↔
      c.firebaseEnabled = true ∧ c.dbPresent = true ∧ c.isConnected = true ∧
        c.currentUser.isSome = true := by
  obtain ⟨fe, db, conn, cu⟩ := c
  cases fe <;> cases db <;> cases conn <;> cases cu <;>
    simp [SyncService.canSync]

theorem setSyncQueue_fields (e : Env) (st : Store) (q : List SyncQueueItem) :
    ((Storage.setSyncQueue e st q).1).userId = st.userId ∧
    ((Storage.setSyncQueue e st q).1).preferences = st.preferences ∧
    ((Storage.setSyncQueue e st q).1).templates = st.templates ∧
    ((Storage.setSyncQueue e st q).1).sessions = st.sessions ∧
    ((Storage.setSyncQueue e st q).1).currentSession = st.currentSession ∧
    ((Storage.setSyncQueue e st q).1).lastSyncTimestamp = st.lastSyncTimestamp := by
  by_cases h : e.wfail .syncQueue <;> simp [Storage.setSyncQueue, h]

theorem getSyncQueue_setSyncQueue (e : Env) (st : Store) (q : List SyncQueueItem) :
    Storage.getSyncQueue (Storage.setSyncQueue e st q).1 =
      if e.wfail .syncQueue then Storage.getSyncQueue st else q := by
  by_cases h : e.wfail .syncQueue <;>
    simp [Storage.setSyncQueue, Storage.getSyncQueue, h]

theorem removeFromSyncQueue_fields (e : Env) (st : Store) (x : String) :
    ((Storage.removeFromSyncQueue e st x).1).userId = st.userId ∧
    ((Storage.removeFromSyncQueue e st x).1).preferences = st.preferences ∧
    ((Storage.removeFromSyncQueue e st x).1).templates = st.templates ∧
    ((Storage.removeFromSyncQueue e st x).1).sessions = st.sessions ∧
    ((Storage.removeFromSyncQueue e st x).1).currentSession = st.currentSession ∧
    ((Storage.removeFromSyncQueue e st x).1).lastSyncTimestamp = st.lastSyncTimestamp := by
  unfold Storage.removeFromSyncQueue
  exact setSyncQueue_fields e st _

theorem updateSyncQueueItem_fields (e : Env) (st : Store) (x : String)
    (patch : SyncQueueItem → SyncQueueItem) :
    ((Storage.updateSyncQueueItem e st x patch).1).userId = st.userId ∧
    ((Storage.updateSyncQueueItem e st x patch).1).preferences = st.preferences ∧
    ((Storage.updateSyncQueueItem e st x patch).1).templates = st.templates ∧
    ((Storage.updateSyncQueueItem e st x patch).1).sessions = st.sessions ∧
    ((Storage.updateSyncQueueItem e st x patch).1).currentSession = st.currentSession ∧
    ((Storage.updateSyncQueueItem e st x patch).1).lastSyncTimestamp = st.lastSyncTimestamp := by
  unfold Storage.updateSyncQueueItem
  cases hq : Storage.updateFirstQueueItem x patch (Storage.getSyncQueue st) with
  | none => simp
  | some q => exact setSyncQueue_fields e st q

theorem processQueueAux_cons (e : Env) (c : SyncService.SyncEnv)
    (up : SyncQueueItem → Option String) (a : SyncQueueItem)
    (rest : List SyncQueueItem) (st : Store) (u : Nat) (errs : List SyncError)
    (atts : List SyncQueueItem) :
    SyncService.processQueueAux e c up (a :: rest) st u errs atts =
      if (SyncService.processSyncItem c up a).1 = true then
        SyncService.processQueueAux e c up rest
          (Storage.removeFromSyncQueue e st a.id).1 (u + 1) errs (atts ++ [a])
      else if SyncService.MAX_RETRY_COUNT ≤ a.retryCount + 1 then
        SyncService.processQueueAux e c up rest
          (Storage.removeFromSyncQueue e st a.id).1 u
          (errs ++ [{ collection := a.collection, documentId := a.documentId,
                      message := (SyncService.processSyncItem c up a).2.getD
                        "Max retries exceeded",
                      retryable := false }])
          (atts ++ [a])
      else
        SyncService.processQueueAux e c up rest
          (Storage.updateSyncQueueItem e st a.id
            (fun it => { it with retryCount := a.retryCount + 1 })).1 u
          (errs ++ [{ collection := a.collection, documentId := a.documentId,
                      message := (SyncService.processSyncItem c up a).2.getD
                        "Sync failed",
                      retryable := true }])
          (atts ++ [a]) := rfl

theorem processQueueAux_fields (e : Env) (c : SyncService.SyncEnv)
    (up : SyncQueueItem → Option String) (l : List SyncQueueItem) :
    ∀ (st : Store) (u : Nat) (errs : List SyncError) (atts : List SyncQueueItem),
    ((SyncService.processQueueAux e c up l st u errs atts).store).userId = st.userId ∧
    ((SyncService.processQueueAux e c up l st u errs atts).store).preferences = st.preferences ∧
    ((SyncService.processQueueAux e c up l st u errs atts).store).templates = st.templates ∧
    ((SyncService.processQueueAux e c up l st u errs atts).store).sessions = st.sessions ∧
    ((SyncService.processQueueAux e c up l st u errs atts).store).currentSession = st.currentSession ∧
    ((SyncService.processQueueAux e c up l st u errs atts).store).lastSyncTimestamp = st.lastSyncTimestamp := by
  induction l with
  | nil => intro st u errs atts; simp [SyncService.processQueueAux]
  | cons a rest ih =>
    intro st u errs atts
    rw [processQueueAux_cons]
    by_cases hr : (SyncService.processSyncItem c up a).1 = true
    · rw [if_pos hr]
      obtain ⟨h1, h2, h3, h4, h5, h6⟩ := removeFromSyncQueue_fields e st a.id
      obtain ⟨g1, g2, g3, g4, g5, g6⟩ := ih (Storage.removeFromSyncQueue e st a.id).1
        (u + 1) errs (atts ++ [a])
      exact ⟨g1.trans h1, g2.trans h2, g3.trans h3, g4.trans h4, g5.trans h5,
        g6.trans h6⟩
    · rw [if_neg hr]
      by_cases hm : SyncService.MAX_RETRY_COUNT ≤ a.retryCount + 1
      · rw [if_pos hm]
        obtain ⟨h1, h2, h3, h4, h5, h6⟩ := removeFromSyncQueue_fields e st a.id
        obtain ⟨g1, g2, g3, g4, g5, g6⟩ := ih (Storage.removeFromSyncQueue e st a.id).1
          u _ (atts ++ [a])
        exact ⟨g1.trans h1, g2.trans h2, g3.trans h3, g4.trans h4, g5.trans h5,
          g6.trans h6⟩
      · rw [if_neg hm]
        obtain ⟨h1, h2, h3, h4, h5, h6⟩ := updateSyncQueueItem_fields e st a.id
          (fun it => { it with retryCount := a.retryCount + 1 })
        obtain ⟨g1, g2, g3, g4, g5, g6⟩ := ih
          (Storage.updateSyncQueueItem e st a.id
            (fun it => { it with retryCount := a.retryCount + 1 })).1
          u _ (atts ++ [a])
        exact ⟨g1.trans h1, g2.trans h2, g3.trans h3, g4.trans h4, g5.trans h5,
          g6.trans h6⟩

theorem processQueue_fields (e : Env) (c : SyncService.SyncEnv)
    (up : SyncQueueItem → Option String) (st : Store) :
    ((SyncService.processQueue e c up st).store).userId = st.userId ∧
    ((SyncService.processQueue e c up st).store).preferences = st.preferences ∧
    ((SyncService.processQueue e c up st).store).templates = st.templates ∧
    ((SyncService.processQueue e c up st).store).sessions = st.sessions ∧
    ((SyncService.processQueue e c up st).store).currentSession = st.currentSession ∧
    ((SyncService.processQueue e c up st).store).lastSyncTimestamp = st.lastSyncTimestamp := by
  unfold SyncService.processQueue
  by_cases h : (Storage.getSyncQueue st).isEmpty = true
  · simp [h]
  · simp only [h, if_false]
    exact processQueueAux_fields e c up _ st 0 [] []

/-! Claim theorems. -/

/-- Claim C9: the Record Store operations never propagate an exception:
a failing underlying read or malformed persisted JSON makes getItem return
null, and a failing underlying write makes setItem and removeItem return
false. -/
theorem record_store_never_throws {T : Type} (msg s : String)
    (parse : String → Option T) (hbad : parse s = none) :
    getItem (RawResult.exn msg) parse = none ∧
    getItem (RawResult.ok (some s)) parse = none ∧
    setItem (RawResult.exn msg) = false ∧
    removeItem (RawResult.exn msg) = false := by
  refine ⟨rfl, ?_, rfl, rfl⟩
  simp [getItem, hbad]

theorem record_store_never_throws_witness :
    getItem (RawResult.exn "disk unavailable") (fun _ : String => (none : Option Nat)) = none ∧
    getItem (RawResult.ok (some "not json")) (fun _ : String => (none : Option Nat)) = none ∧
    setItem (RawResult.exn "disk unavailable") = false ∧
    removeItem (RawResult.exn "disk unavailable") = false :=
  record_store_never_throws "disk unavailable" "not json" (fun _ => none) rfl

/-- Claim C10: the sync-status channel holds at most one subscriber: a
second subscription replaces the first (which then receives no further
notifications), and the unsubscriber returned by an earlier subscription
clears whichever callback is currently registered. -/
theorem single_subscriber_channel (c1 c2 : Nat)
    (st s : SyncService.SubscriptionState) (h : c1 ≠ c2) :
    SyncService.notifyTarget
      (SyncService.subscribeToSyncStatus c2
        (SyncService.subscribeToSyncStatus c1 st).1).1 = some c2 ∧
    SyncService.notifyTarget
      (SyncService.subscribeToSyncStatus c2
        (SyncService.subscribeToSyncStatus c1 st).1).1 ≠ some c1 ∧
    ((SyncService.subscribeToSyncStatus c1 st).2 s).onStatusChange = none := by
  refine ⟨rfl, ?_, rfl⟩
  intro hh
  exact h (Option.some.inj hh).symm

theorem single_subscriber_channel_witness :
    SyncService.notifyTarget
      (SyncService.subscribeToSyncStatus 1
        (SyncService.subscribeToSyncStatus 0 ⟨none⟩).1).1 = some 1 ∧
    SyncService.notifyTarget
      (SyncService.subscribeToSyncStatus 1
        (SyncService.subscribeToSyncStatus 0 ⟨none⟩).1).1 ≠ some 0 ∧
    ((SyncService.subscribeToSyncStatus 0 ⟨none⟩).2 ⟨some 7⟩).onStatusChange = none :=
  single_subscriber_channel 0 1 ⟨none⟩ ⟨some 7⟩ (by decide)

/-- Claim C2: when the preflight gate fails, the cycle is skipped: the
store (hence the sync queue) is untouched, no remote upload or query is
attempted, the result is success with zero counts and no errors, and the
status becomes offline exactly when the failing precondition was
connectivity, idle otherwise. -/
theorem preflight_skip (e : Env) (now : Nat) (c : SyncService.SyncEnv)
    (up : SyncQueueItem → Option String) (r : SyncService.RemoteEnv)
    (st : Store) (h : (SyncService.canSync c).canSync = false) :
    SyncService.performSync e now c up r st =
      { store := st,
        result := { success := true, itemsUploaded := 0, itemsDownloaded := 0,
                    errors := [] },
        statusTrace :=
          [if c.firebaseEnabled && c.dbPresent && !c.isConnected then .offline
           else .idle],
        uploadAttempts := [], queries := [] } := by
  obtain ⟨fe, db, conn, cu⟩ := c
  cases fe <;> cases db <;> cases conn <;> cases cu <;>
    simp_all [SyncService.performSync, SyncService.canSync]

theorem preflight_skip_witness :
    SyncService.performSync noFail 100 offlineEnv alwaysFailUpload
        emptyRemote sampleLocalStore =
      { store := sampleLocalStore,
        result := { success := true, itemsUploaded := 0, itemsDownloaded := 0,
                    errors := [] },
        statusTrace := [.offline], uploadAttempts := [], queries := [] } :=
  preflight_skip noFail 100 offlineEnv alwaysFailUpload emptyRemote
    sampleLocalStore (by decide)

/-- Claim C7: a cycle that passes the preflight gate ends by setting the
last-sync timestamp to the current time, whatever the upload oracle and
the remote query outcomes were. -/
theorem watermark_advance (e : Env) (now : Nat) (c : SyncService.SyncEnv)
    (up : SyncQueueItem → Option String) (r : SyncService.RemoteEnv)
    (st : Store) (hgate : (SyncService.canSync c).canSync = true)
    (hw : e.wfail .lastSyncTimestamp = false) :
    ((SyncService.performSync e now c up r st).store).lastSyncTimestamp =
      some now := by
  simp [SyncService.performSync, hgate, Storage.setLastSyncTimestamp, hw]

theorem setLastSyncTimestamp_fields (e : Env) (st : Store) (ts : Nat) :
    ((Storage.setLastSyncTimestamp e st ts).1).userId = st.userId ∧
    ((Storage.setLastSyncTimestamp e st ts).1).preferences = st.preferences ∧
    ((Storage.setLastSyncTimestamp e st ts).1).templates = st.templates ∧
    ((Storage.setLastSyncTimestamp e st ts).1).sessions = st.sessions ∧
    ((Storage.setLastSyncTimestamp e st ts).1).currentSession = st.currentSession ∧
    ((Storage.setLastSyncTimestamp e st ts).1).syncQueue = st.syncQueue := by
  by_cases h : e.wfail .lastSyncTimestamp <;> simp [Storage.setLastSyncTimestamp, h]

theorem setSessions_shape (e : Env) (now : Nat) (st : Store)
    (d : List WorkoutSession) :
    ((Storage.setSessions e now st d).1).userId = st.userId ∧
    ((Storage.setSessions e now st d).1).preferences = st.preferences ∧
    ((Storage.setSessions e now st d).1).templates = st.templates ∧
    ((Storage.setSessions e now st d).1).currentSession = st.currentSession ∧
    ((Storage.setSessions e now st d).1).syncQueue = st.syncQueue ∧
    ((Storage.setSessions e now st d).1).lastSyncTimestamp = st.lastSyncTimestamp ∧
    (((Storage.setSessions e now st d).1).sessions = st.sessions ∨
      ((Storage.setSessions e now st d).1).sessions = some ⟨d, now, none⟩) := by
  by_cases h : e.wfail .sessions <;> simp [Storage.setSessions, h]

theorem setTemplates_shape (e : Env) (now : Nat) (st : Store)
    (d : List Workout) :
    ((Storage.setTemplates e now st d).1).userId = st.userId ∧
    ((Storage.setTemplates e now st d).1).preferences = st.preferences ∧
    ((Storage.setTemplates e now st d).1).sessions = st.sessions ∧
    ((Storage.setTemplates e now st d).1).currentSession = st.currentSession ∧
    ((Storage.setTemplates e now st d).1).syncQueue = st.syncQueue ∧
    ((Storage.setTemplates e now st d).1).lastSyncTimestamp = st.lastSyncTimestamp ∧
    (((Storage.setTemplates e now st d).1).templates = st.templates ∨
      ((Storage.setTemplates e now st d).1).templates = some ⟨d, now, none⟩) := by
  by_cases h : e.wfail .templates <;> simp [Storage.setTemplates, h]

theorem applySessionDocs_shape (e : Env) (now : Nat) (st : Store)
    (docs : List (SyncService.RemoteDoc WorkoutSession)) :
    ((SyncService.applySessionDocs e now st docs).1).userId = st.userId ∧
    ((SyncService.applySessionDocs e now st docs).1).preferences = st.preferences ∧
    ((SyncService.applySessionDocs e now st docs).1).templates = st.templates ∧
    ((SyncService.applySessionDocs e now st docs).1).currentSession = st.currentSession ∧
    ((SyncService.applySessionDocs e now st docs).1).syncQueue = st.syncQueue ∧
    ((SyncService.applySessionDocs e now st docs).1).lastSyncTimestamp = st.lastSyncTimestamp ∧
    (((SyncService.applySessionDocs e now st docs).1).sessions = st.sessions ∨
      ∃ dta, ((SyncService.applySessionDocs e now st docs).1).sessions =
        some ⟨dta, now, none⟩) := by
  simp only [SyncService.applySessionDocs]
  by_cases he : docs.isEmpty = true
  · simp [he]
  · rw [if_neg he]
    by_cases hu : (SyncService.mergeRemoteDocs (fun s => s.id) docs
        (Storage.getSessions st now).data 0 false).2.2 = true
    · rw [if_pos hu]
      obtain ⟨h1, h2, h3, h4, h5, h6, h7⟩ := setSessions_shape e now st
        (SyncService.mergeRemoteDocs (fun s => s.id) docs
          (Storage.getSessions st now).data 0 false).1
      refine ⟨h1, h2, h3, h4, h5, h6, ?_⟩
      rcases h7 with h | h
      · exact Or.inl h
      · exact Or.inr ⟨_, h⟩
    · rw [if_neg hu]
      exact ⟨rfl, rfl, rfl, rfl, rfl, rfl, Or.inl rfl⟩

theorem applyTemplateDocs_shape (e : Env) (now : Nat) (st : Store)
    (docs : List (SyncService.RemoteDoc Workout)) :
    ((SyncService.applyTemplateDocs e now st docs).1).userId = st.userId ∧
    ((SyncService.applyTemplateDocs e now st docs).1).preferences = st.preferences ∧
    ((SyncService.applyTemplateDocs e now st docs).1).sessions = st.sessions ∧
    ((SyncService.applyTemplateDocs e now st docs).1).currentSession = st.currentSession ∧
    ((SyncService.applyTemplateDocs e now st docs).1).syncQueue = st.syncQueue ∧
    ((SyncService.applyTemplateDocs e now st docs).1).lastSyncTimestamp = st.lastSyncTimestamp ∧
    (((SyncService.applyTemplateDocs e now st docs).1).templates = st.templates ∨
      ∃ dta, ((SyncService.applyTemplateDocs e now st docs).1).templates =
        some ⟨dta, now, none⟩) := by
  simp only [SyncService.applyTemplateDocs]
  by_cases he : docs.isEmpty = true
  · simp [he]
  · rw [if_neg he]
    by_cases hu : (SyncService.mergeRemoteDocs (fun t => t.id) docs
        (Storage.getTemplates st now).data 0 false).2.2 = true
    · rw [if_pos hu]
      obtain ⟨h1, h2, h3, h4, h5, h6, h7⟩ := setTemplates_shape e now st
        (SyncService.mergeRemoteDocs (fun t => t.id) docs
          (Storage.getTemplates st now).data 0 false).1
      refine ⟨h1, h2, h3, h4, h5, h6, ?_⟩
      rcases h7 with h | h
      · exact Or.inl h
      · exact Or.inr ⟨_, h⟩
    · rw [if_neg hu]
      exact ⟨rfl, rfl, rfl, rfl, rfl, rfl, Or.inl rfl⟩

theorem pullRemoteChanges_shape (e : Env) (now : Nat) (c : SyncService.SyncEnv)
    (r : SyncService.RemoteEnv) (st : Store) :
    ((SyncService.pullRemoteChanges e now c r st).store).userId = st.userId ∧
    ((SyncService.pullRemoteChanges e now c r st).store).preferences = st.preferences ∧
    ((SyncService.pullRemoteChanges e now c r st).store).currentSession = st.currentSession ∧
    ((SyncService.pullRemoteChanges e now c r st).store).syncQueue = st.syncQueue ∧
    ((SyncService.pullRemoteChanges e now c r st).store).lastSyncTimestamp = st.lastSyncTimestamp ∧
    (((SyncService.pullRemoteChanges e now c r st).store).sessions = st.sessions ∨
      ∃ dta, ((SyncService.pullRemoteChanges e now c r st).store).sessions =
        some ⟨dta, now, none⟩) ∧
    (((SyncService.pullRemoteChanges e now c r st).store).templates = st.templates ∨
      ∃ dta, ((SyncService.pullRemoteChanges e now c r st).store).templates =
        some ⟨dta, now, none⟩) := by
  simp only [SyncService.pullRemoteChanges]
  by_cases hg : (!c.dbPresent || c.currentUser.isNone) = true
  · rw [if_pos hg]
    exact ⟨rfl, rfl, rfl, rfl, rfl, Or.inl rfl, Or.inl rfl⟩
  · rw [if_neg hg]
    cases hq : SyncService.querySessions r (Storage.getLastSyncTimestamp st) with
    | error msg => exact ⟨rfl, rfl, rfl, rfl, rfl, Or.inl rfl, Or.inl rfl⟩
    | ok sdocs =>
      obtain ⟨a1, a2, a3, a4, a5, a6, a7⟩ := applySessionDocs_shape e now st sdocs
      cases ht : SyncService.queryTemplates r (Storage.getLastSyncTimestamp st) with
      | error msg => exact ⟨a1, a2, a4, a5, a6, a7, Or.inl a3⟩
      | ok tdocs =>
        obtain ⟨b1, b2, b3, b4, b5, b6, b7⟩ := applyTemplateDocs_shape e now
          (SyncService.applySessionDocs e now st sdocs).1 tdocs
        refine ⟨b1.trans a1, b2.trans a2, b4.trans a4, b5.trans a5,
          b6.trans a6, ?_, ?_⟩
        · rcases a7 with h | ⟨dta, h⟩
          · exact Or.inl (b3.trans h)
          · exact Or.inr ⟨dta, b3.trans h⟩
        · rcases b7 with h | ⟨dta, h⟩
          · exact Or.inl (h.trans a3)
          · exact Or.inr ⟨dta, h⟩

theorem updateFirstTemplate_eq_none_iff (x : Workout) (l : List Workout) :
    Storage.updateFirstTemplate x l = none ↔
      ∀ t ∈ l, (t.id == x.id) = false := by
  induction l with
  | nil => simp [Storage.updateFirstTemplate]
  | cons a rest ih =>
    simp only [Storage.updateFirstTemplate]
    by_cases h : (a.id == x.id) = true
    · rw [if_pos h]
      constructor
      · intro hc; exact absurd hc (by simp)
      · intro hall; exact absurd (hall a (List.mem_cons_self a rest)) (by simp [h])
    · rw [if_neg h, Option.map_eq_none']
      rw [Bool.not_eq_true] at h
      have hne : a.id ≠ x.id := by simpa using h
      simp [ih, List.forall_mem_cons, h, hne]

theorem updateFirstTemplate_mem (x : Workout) :
    ∀ (l l' : List Workout), Storage.updateFirstTemplate x l = some l' → x ∈ l' := by
  intro l
  induction l with
  | nil => intro l' h; simp [Storage.updateFirstTemplate] at h
  | cons a rest ih =>
    intro l' h
    simp only [Storage.updateFirstTemplate] at h
    by_cases ha : (a.id == x.id) = true
    · rw [if_pos ha] at h
      cases h
      exact List.mem_cons_self x rest
    · rw [if_neg ha, Option.map_eq_some'] at h
      obtain ⟨l'', h'', rfl⟩ := h
      exact List.mem_cons_of_mem a (ih l'' h'')

/-- saveTemplate commits the template locally (add or update) and then
appends exactly one upsert queue item carrying the committed payload. -/
theorem saveTemplate_spec (e : Env) (now : Nat) (newId qid : String)
    (st : Store) (template : Workout) (hnf : ∀ k, e.wfail k = false) :
    Storage.getSyncQueue (DataService.saveTemplate e now newId qid st template).1 =
      Storage.getSyncQueue st ++
        [{ id := qid, collection := .templates,
           documentId := (DataService.saveTemplate e now newId qid st template).2.id,
           action := .upsert,
           data := some (.template (DataService.saveTemplate e now newId qid st template).2),
           createdAt := now, retryCount := 0 }] ∧
    (DataService.saveTemplate e now newId qid st template).2 ∈
      (Storage.getTemplates (DataService.saveTemplate e now newId qid st template).1 now).data := by
  set tw : Workout :=
    if template.id != "" then template else { template with id := newId } with htw
  by_cases hfind :
      (((Storage.getTemplates st now).data).findIdx?
        (fun t => t.id == tw.id)).isNone = true
  · have hst : DataService.saveTemplate e now newId qid st template =
        ((DataService.queueForSync e now qid (Storage.addTemplate e now st tw).1
          .templates tw.id .upsert (some (.template tw))).1, tw) := by
      simp only [DataService.saveTemplate, ← htw]
      rw [if_pos hfind]
    rw [hst]
    simp [DataService.queueForSync, Storage.addTemplate, Storage.setTemplates,
      Storage.addToSyncQueue, Storage.setSyncQueue, Storage.getSyncQueue,
      Storage.getTemplates, hnf]
  · have hex : ∃ l', Storage.updateFirstTemplate tw
        (Storage.getTemplates st now).data = some l' := by
      cases hu : Storage.updateFirstTemplate tw
          (Storage.getTemplates st now).data with
      | none =>
        exfalso
        apply hfind
        rw [Option.isNone_iff_eq_none, List.findIdx?_eq_none_iff]
        exact (updateFirstTemplate_eq_none_iff _ _).mp hu
      | some l' => exact ⟨l', rfl⟩
    obtain ⟨l', hu⟩ := hex
    have hmem := updateFirstTemplate_mem _ _ _ hu
    have hst : DataService.saveTemplate e now newId qid st template =
        ((DataService.queueForSync e now qid (Storage.setTemplates e now st l').1
          .templates tw.id .upsert (some (.template tw))).1, tw) := by
      simp only [DataService.saveTemplate, ← htw]
      rw [if_neg hfind]
      simp only [Storage.updateTemplate]
      rw [hu]
    rw [hst]
    simp [DataService.queueForSync, Storage.setTemplates,
      Storage.addToSyncQueue, Storage.setSyncQueue, Storage.getSyncQueue,
      Storage.getTemplates, hnf, hmem]

/-- Claim C5, counterexample: with a store whose session-history write
throws but whose current-session write succeeds, completeSession empties
the current-session slot while the completed session never reaches the
history — one effect without the other. -/
theorem completeSession_split_effects :
    (¬ ∃ x ∈ (Storage.getSessions
        (DataService.completeSession failSessionsEnv 100 "q1"
          ⟨none, none, none, some ⟨[], 5, none⟩, some sampleSession, some [], none⟩
          sampleSession).1 0).data,
        x.id = sampleSession.id ∧ x.completedAt ≠ none) ∧
    Storage.getCurrentSession
      (DataService.completeSession failSessionsEnv 100 "q1"
        ⟨none, none, none, some ⟨[], 5, none⟩, some sampleSession, some [], none⟩
        sampleSession).1 = none := by
  decide

/-- Claim C5, amended: when the underlying session-history and
current-session writes both succeed, completeSession puts the session,
with completedAt set, into the history and empties the current-session
slot together. -/
theorem completeSession_atomicity (e : Env) (now : Nat) (qid : String)
    (st : Store) (s : WorkoutSession)
    (h1 : e.wfail .sessions = false) (h2 : e.wfail .currentSession = false) :
    ({ s with completedAt := some now } ∈
      (Storage.getSessions (DataService.completeSession e now qid st s).1 now).data) ∧
    Storage.getCurrentSession (DataService.completeSession e now qid st s).1 = none ∧
    (DataService.completeSession e now qid st s).2 =
      { s with completedAt := some now } := by
  by_cases hq : e.wfail .syncQueue <;>
    simp [DataService.completeSession, DataService.queueForSync,
      Storage.addSession, Storage.setSessions, Storage.setCurrentSession,
      Storage.addToSyncQueue, Storage.setSyncQueue, Storage.getSessions,
      Storage.getCurrentSession, Storage.getSyncQueue, h1, h2, hq]

theorem completeSession_atomicity_witness :
    ({ sampleSession with completedAt := some 100 } ∈
      (Storage.getSessions
        (DataService.completeSession noFail 100 "q1" sampleLocalStore
          sampleSession).1 100).data) ∧
    Storage.getCurrentSession
      (DataService.completeSession noFail 100 "q1" sampleLocalStore
        sampleSession).1 = none ∧
    (DataService.completeSession noFail 100 "q1" sampleLocalStore
        sampleSession).2 = { sampleSession with completedAt := some 100 } :=
  completeSession_atomicity noFail 100 "q1" sampleLocalStore sampleSession rfl rfl

/-- Claim C4, counterexample: updateCurrentSession is a mutating Data
Service call that commits the new value locally yet creates no sync queue
item at all. -/
theorem updateCurrentSession_no_queue_item :
    Storage.getSyncQueue
      (DataService.updateCurrentSession noFail
        ⟨some "u1", none, none, none, none, some [], none⟩ sampleSession) = [] ∧
    Storage.getCurrentSession
      (DataService.updateCurrentSession noFail
        ⟨some "u1", none, none, none, none, some [], none⟩ sampleSession) =
      some sampleSession := by
  decide

/-- Claim C4, amended: the mutating calls that touch synced collections
(preferences save when a non-empty user id is stored, template save and
delete, session completion) first commit locally and then append exactly
one queue item whose data is the committed payload with retryCount 0;
preferences save with a missing or empty stored user id and the
current-session calls (start, update, discard) commit locally without
creating any queue item. -/
theorem mutating_calls_commit_then_queue (e : Env) (now : Nat)
    (qid newId : String) (st : Store) (p : UserPreferences)
    (template : Workout) (templateId : String) (s session : WorkoutSession)
    (workoutId : String) (exercises : List (String × Nat)) (uid : String)
    (hnf : ∀ k, e.wfail k = false) :
    (Storage.getUserId st = some uid → uid ≠ "" →
      (DataService.savePreferences e now qid st p).preferences =
        some { data := p, lastModified := now, syncedAt := none } ∧
      Storage.getSyncQueue (DataService.savePreferences e now qid st p) =
        Storage.getSyncQueue st ++
          [{ id := qid, collection := .preferences, documentId := uid,
             action := .upsert, data := some (.prefs p), createdAt := now,
             retryCount := 0 }]) ∧
    (Storage.getUserId st = none →
      (DataService.savePreferences e now qid st p).preferences =
        some { data := p, lastModified := now, syncedAt := none } ∧
      Storage.getSyncQueue (DataService.savePreferences e now qid st p) =
        Storage.getSyncQueue st) ∧
    (Storage.getUserId st = some "" →
      (DataService.savePreferences e now qid st p).preferences =
        some { data := p, lastModified := now, syncedAt := none } ∧
      Storage.getSyncQueue (DataService.savePreferences e now qid st p) =
        Storage.getSyncQueue st) ∧
    (Storage.getSyncQueue (DataService.saveTemplate e now newId qid st template).1 =
      Storage.getSyncQueue st ++
        [{ id := qid, collection := .templates,
           documentId := (DataService.saveTemplate e now newId qid st template).2.id,
           action := .upsert,
           data := some (.template (DataService.saveTemplate e now newId qid st template).2),
           createdAt := now, retryCount := 0 }] ∧
      (DataService.saveTemplate e now newId qid st template).2 ∈
        (Storage.getTemplates (DataService.saveTemplate e now newId qid st template).1 now).data) ∧
    (Storage.getSyncQueue (DataService.deleteTemplate e now qid st templateId) =
      Storage.getSyncQueue st ++
        [{ id := qid, collection := .templates, documentId := templateId,
           action := .delete, data := none, createdAt := now, retryCount := 0 }] ∧
      ∀ t ∈ (Storage.getTemplates (DataService.deleteTemplate e now qid st templateId) now).data,
        t.id ≠ templateId) ∧
    (Storage.getSyncQueue (DataService.completeSession e now qid st s).1 =
      Storage.getSyncQueue st ++
        [{ id := qid, collection := .sessions, documentId := s.id,
           action := .upsert,
           data := some (.session { s with completedAt := some now }),
           createdAt := now, retryCount := 0 }] ∧
      ({ s with completedAt := some now } ∈
        (Storage.getSessions (DataService.completeSession e now qid st s).1 now).data) ∧
      Storage.getCurrentSession (DataService.completeSession e now qid st s).1 =
        none) ∧
    (Storage.getSyncQueue
      (DataService.startSession e now newId st workoutId exercises).1 =
        Storage.getSyncQueue st ∧
      Storage.getCurrentSession
        (DataService.startSession e now newId st workoutId exercises).1 =
        some (DataService.startSession e now newId st workoutId exercises).2) ∧
    (Storage.getSyncQueue (DataService.updateCurrentSession e st session) =
        Storage.getSyncQueue st ∧
      Storage.getCurrentSession (DataService.updateCurrentSession e st session) =
        some session) ∧
    (Storage.getSyncQueue (DataService.discardCurrentSession e st) =
        Storage.getSyncQueue st ∧
      Storage.getCurrentSession (DataService.discardCurrentSession e st) = none) := by
  refine ⟨?_, ?_, ?_, saveTemplate_spec e now newId qid st template hnf,
    ⟨?_, ?_⟩, ?_, ⟨?_, ?_⟩, ⟨?_, ?_⟩, ⟨?_, ?_⟩⟩
  · intro huid hne
    simp only [Storage.getUserId] at huid
    have hne' : (uid != "") = true := by simp [hne]
    simp [DataService.savePreferences, Storage.setPreferences,
      Storage.getUserId, DataService.queueForSync, Storage.addToSyncQueue,
      Storage.setSyncQueue, Storage.getSyncQueue, hnf, huid, hne']
  · intro huid
    simp only [Storage.getUserId] at huid
    simp [DataService.savePreferences, Storage.setPreferences,
      Storage.getUserId, Storage.getSyncQueue, hnf, huid]
  · intro huid
    simp only [Storage.getUserId] at huid
    simp [DataService.savePreferences, Storage.setPreferences,
      Storage.getUserId, Storage.getSyncQueue, hnf, huid]
  · simp [DataService.deleteTemplate, Storage.deleteTemplate,
      Storage.setTemplates, DataService.queueForSync, Storage.addToSyncQueue,
      Storage.setSyncQueue, Storage.getSyncQueue, hnf]
  · intro t hmem
    simp [DataService.deleteTemplate, Storage.deleteTemplate,
      Storage.setTemplates, DataService.queueForSync, Storage.addToSyncQueue,
      Storage.setSyncQueue, Storage.getTemplates, hnf, List.mem_filter,
      bne_iff_ne] at hmem
    exact hmem.2
  · simp [DataService.completeSession, Storage.addSession,
      Storage.setSessions, Storage.setCurrentSession, DataService.queueForSync,
      Storage.addToSyncQueue, Storage.setSyncQueue, Storage.getSessions,
      Storage.getCurrentSession, Storage.getSyncQueue, hnf]
  · simp [DataService.startSession, Storage.setCurrentSession,
      Storage.getSyncQueue, hnf]
  · simp [DataService.startSession, Storage.setCurrentSession,
      Storage.getCurrentSession, hnf]
  · simp [DataService.updateCurrentSession, Storage.setCurrentSession,
      Storage.getSyncQueue, hnf]
  · simp [DataService.updateCurrentSession, Storage.setCurrentSession,
      Storage.getCurrentSession, hnf]
  · simp [DataService.discardCurrentSession, Storage.setCurrentSession,
      Storage.getSyncQueue, hnf]
  · simp [DataService.discardCurrentSession, Storage.setCurrentSession,
      Storage.getCurrentSession, hnf]

theorem mutating_calls_commit_then_queue_witness :
    (DataService.savePreferences noFail 100 "q1" sampleLocalStore
        Storage.DEFAULT_PREFERENCES).preferences =
      some { data := Storage.DEFAULT_PREFERENCES, lastModified := 100,
             syncedAt := none } ∧
    Storage.getSyncQueue
      (DataService.savePreferences noFail 100 "q1" sampleLocalStore
        Storage.DEFAULT_PREFERENCES) =
      Storage.getSyncQueue sampleLocalStore ++
        [{ id := "q1", collection := .preferences, documentId := "u1",
           action := .upsert, data := some (.prefs Storage.DEFAULT_PREFERENCES),
           createdAt := 100, retryCount := 0 }] :=
  (mutating_calls_commit_then_queue noFail 100 "q1" "n1" sampleLocalStore
    Storage.DEFAULT_PREFERENCES sampleTemplate "t1" sampleSession sampleSession
    "w1" [] "u1" (fun _ => rfl)).1 rfl (by decide)

theorem watermark_advance_witness :
    ((SyncService.performSync noFail 42 onlineEnv alwaysFailUpload
        emptyRemote sampleLocalStore).store).lastSyncTimestamp = some 42 :=
  watermark_advance noFail 42 onlineEnv alwaysFailUpload emptyRemote
    sampleLocalStore (by decide) rfl

/-- Claim C8: every successful local write of a SyncedData slot stores the
new value with lastModified equal to the time of that write and syncedAt
null; and no sync-engine cycle ever produces a slot whose syncedAt is
non-null, so a non-null syncedAt could only ever come from the Sync
Engine — never from a local write. -/
theorem syncedData_write_invariant (e : Env) (now : Nat) (st : Store)
    (p : UserPreferences) (ts : List Workout) (ss : List WorkoutSession)
    (template : Workout) (templateId : String) (session : WorkoutSession)
    (c : SyncService.SyncEnv) (up : SyncQueueItem → Option String)
    (r : SyncService.RemoteEnv) :
    (e.wfail .preferences = false →
      ((Storage.setPreferences e now st p).1).preferences =
        some { data := p, lastModified := now, syncedAt := none }) ∧
    (e.wfail .templates = false →
      ((Storage.setTemplates e now st ts).1).templates =
        some { data := ts, lastModified := now, syncedAt := none }) ∧
    (e.wfail .sessions = false →
      ((Storage.setSessions e now st ss).1).sessions =
        some { data := ss, lastModified := now, syncedAt := none }) ∧
    (e.wfail .templates = false →
      ((Storage.addTemplate e now st template).1).templates =
        some { data := (Storage.getTemplates st now).data ++ [template],
               lastModified := now, syncedAt := none }) ∧
    (e.wfail .templates = false →
      ((Storage.deleteTemplate e now st templateId).1).templates =
        some { data := (Storage.getTemplates st now).data.filter
                 (fun t => t.id != templateId),
               lastModified := now, syncedAt := none }) ∧
    (e.wfail .sessions = false →
      ((Storage.addSession e now st session).1).sessions =
        some { data := (Storage.getSessions st now).data ++ [session],
               lastModified := now, syncedAt := none }) ∧
    (((SyncService.performSync e now c up r st).store).preferences =
      st.preferences) ∧
    (((SyncService.performSync e now c up r st).store).sessions = st.sessions ∨
      ∃ d, ((SyncService.performSync e now c up r st).store).sessions =
        some ⟨d, now, none⟩) ∧
    (((SyncService.performSync e now c up r st).store).templates = st.templates ∨
      ∃ d, ((SyncService.performSync e now c up r st).store).templates =
        some ⟨d, now, none⟩) := by
  have heng :
      (((SyncService.performSync e now c up r st).store).preferences =
        st.preferences) ∧
      (((SyncService.performSync e now c up r st).store).sessions = st.sessions ∨
        ∃ d, ((SyncService.performSync e now c up r st).store).sessions =
          some ⟨d, now, none⟩) ∧
      (((SyncService.performSync e now c up r st).store).templates = st.templates ∨
        ∃ d, ((SyncService.performSync e now c up r st).store).templates =
          some ⟨d, now, none⟩) := by
    simp only [SyncService.performSync]
    by_cases hg : (!(SyncService.canSync c).canSync) = true
    · rw [if_pos hg]
      exact ⟨rfl, Or.inl rfl, Or.inl rfl⟩
    · rw [if_neg hg]
      obtain ⟨q1, q2, q3, q4, q5, q6⟩ := processQueue_fields e c up st
      obtain ⟨p1, p2, p3, p4, p5, p6, p7⟩ := pullRemoteChanges_shape e now c r
        (SyncService.processQueue e c up st).store
      obtain ⟨l1, l2, l3, l4, l5, l6⟩ := setLastSyncTimestamp_fields e
        (SyncService.pullRemoteChanges e now c r
          (SyncService.processQueue e c up st).store).store now
      refine ⟨l2.trans (p2.trans q2), ?_, ?_⟩
      · rcases p6 with h | ⟨d, h⟩
        · exact Or.inl (l4.trans (h.trans q4))
        · exact Or.inr ⟨d, l4.trans h⟩
      · rcases p7 with h | ⟨d, h⟩
        · exact Or.inl (l3.trans (h.trans q3))
        · exact Or.inr ⟨d, l3.trans h⟩
  refine ⟨?_, ?_, ?_, ?_, ?_, ?_, heng.1, heng.2.1, heng.2.2⟩
  · intro h; simp [Storage.setPreferences, h]
  · intro h; simp [Storage.setTemplates, h]
  · intro h; simp [Storage.setSessions, h]
  · intro h; simp [Storage.addTemplate, Storage.setTemplates, h]
  · intro h; simp [Storage.deleteTemplate, Storage.setTemplates, h]
  · intro h; simp [Storage.addSession, Storage.setSessions, h]

theorem syncedData_write_invariant_witness :
    ((Storage.setPreferences noFail 7 emptyStore Storage.DEFAULT_PREFERENCES).1).preferences =
      some { data := Storage.DEFAULT_PREFERENCES, lastModified := 7,
             syncedAt := none } :=
  (syncedData_write_invariant noFail 7 emptyStore Storage.DEFAULT_PREFERENCES
    [] [] sampleTemplate "t1" sampleSession onlineEnv alwaysFailUpload
    emptyRemote).1 rfl

/-- Claim C6, counterexample: a gate-passing cycle issues remote range
queries for sessions and templates only — the preferences collection is
never queried during the download phase. -/
theorem preferences_not_pulled :
    (SyncService.performSync noFail 100 onlineEnv (fun _ => none) emptyRemote
        emptyStore).queries =
      [(SyncCollection.sessions, 0), (SyncCollection.templates, 0)] ∧
    ∀ q ∈ (SyncService.performSync noFail 100 onlineEnv (fun _ => none)
        emptyRemote emptyStore).queries,
      q.1 ≠ SyncCollection.preferences := by
  decide

/-- Claim C6, amended: in every gate-passing cycle whose remote queries do
not throw, the download phase issues exactly one range query per pulled
collection — sessions and then templates, both at the locally recorded
last-sync watermark; preferences are not pulled. -/
theorem download_queried_collections (e : Env) (now : Nat)
    (c : SyncService.SyncEnv) (up : SyncQueueItem → Option String)
    (r : SyncService.RemoteEnv) (st : Store)
    (hgate : (SyncService.canSync c).canSync = true)
    (hs : r.sessionsQueryThrows = none) (ht : r.templatesQueryThrows = none) :
    (SyncService.performSync e now c up r st).queries =
      [(.sessions, Storage.getLastSyncTimestamp st),
       (.templates, Storage.getLastSyncTimestamp st)] := by
  have hg : ¬((!(SyncService.canSync c).canSync) = true) := by simp [hgate]
  obtain ⟨hfe, hdb, hconn, hcu⟩ := (canSync_true_iff c).mp hgate
  have hcu' : c.currentUser.isNone = false := by
    rcases h : c.currentUser with _ | u
    · rw [h] at hcu; simp at hcu
    · rfl
  have hw : Storage.getLastSyncTimestamp
      (SyncService.processQueue e c up st).store =
      Storage.getLastSyncTimestamp st := by
    have q := (processQueue_fields e c up st).2.2.2.2.2
    simp [Storage.getLastSyncTimestamp, q]
  simp only [SyncService.performSync]
  rw [if_neg hg]
  simp only [SyncService.pullRemoteChanges, SyncService.querySessions,
    SyncService.queryTemplates, hs, ht, hdb, hcu', hw, Bool.not_true,
    Bool.false_or, if_false]
  simp

theorem download_queried_collections_witness :
    (SyncService.performSync noFail 100 onlineEnv (fun _ => none) sampleRemote
        sampleLocalStore).queries =
      [(.sessions, 0), (.templates, 0)] :=
  download_queried_collections noFail 100 onlineEnv (fun _ => none)
    sampleRemote sampleLocalStore (by decide) rfl rfl

/-! The download-phase merge loop: lemmas about mergeRemoteDocs. -/

theorem merge_extends {α : Type} (g : α → String) :
    ∀ (docs : List (SyncService.RemoteDoc α)) (data : List α) (n : Nat) (u : Bool),
      ∃ t, (SyncService.mergeRemoteDocs g docs data n u).1 = data ++ t := by
  intro docs
  induction docs with
  | nil => intro data n u; exact ⟨[], by simp [SyncService.mergeRemoteDocs]⟩
  | cons d rest ih =>
    intro data n u
    simp only [SyncService.mergeRemoteDocs]
    by_cases hf : ((data.findIdx? (fun x => g x == d.id)).isNone) = true
    · rw [if_pos hf]
      obtain ⟨t, htl⟩ := ih (data ++ [SyncService.stripMeta d]) (n + 1) true
      exact ⟨SyncService.stripMeta d :: t, by rw [htl, List.append_assoc]; rfl⟩
    · rw [if_neg hf]
      exact ih data n u

theorem merge_flag_mono {α : Type} (g : α → String) :
    ∀ (docs : List (SyncService.RemoteDoc α)) (data : List α) (n : Nat),
      (SyncService.mergeRemoteDocs g docs data n true).2.2 = true := by
  intro docs
  induction docs with
  | nil => intro data n; rfl
  | cons d rest ih =>
    intro data n
    simp only [SyncService.mergeRemoteDocs]
    by_cases hf : ((data.findIdx? (fun x => g x == d.id)).isNone) = true
    · rw [if_pos hf]; exact ih _ _
    · rw [if_neg hf]; exact ih _ _

theorem merge_insert {α : Type} (g : α → String) (d : SyncService.RemoteDoc α) :
    ∀ (docs : List (SyncService.RemoteDoc α)) (data : List α) (n : Nat) (u : Bool),
      d ∈ docs →
      (∀ d' ∈ docs, g (SyncService.stripMeta d') = d'.id) →
      ((docs.map (fun x => x.id)).Nodup) →
      (∀ x ∈ data, g x ≠ d.id) →
      SyncService.stripMeta d ∈ (SyncService.mergeRemoteDocs g docs data n u).1 ∧
      (SyncService.mergeRemoteDocs g docs data n u).2.2 = true := by
  intro docs
  induction docs with
  | nil => intro data n u hmem; simp at hmem
  | cons a rest ih =>
    intro data n u hmem hwf hnd hnodata
    simp only [SyncService.mergeRemoteDocs]
    rcases List.mem_cons.mp hmem with rfl | hmem'
    · have hf : ((data.findIdx? (fun x => g x == d.id)).isNone) = true := by
        rw [Option.isNone_iff_eq_none, List.findIdx?_eq_none_iff]
        intro x hx
        simpa using hnodata x hx
      rw [if_pos hf]
      constructor
      · obtain ⟨t, htl⟩ := merge_extends g rest
          (data ++ [SyncService.stripMeta d]) (n + 1) true
        rw [htl]
        exact List.mem_append_left _ (List.mem_append_right _ (by simp))
      · exact merge_flag_mono g rest _ _
    · have hane : a.id ≠ d.id := by
        have hnotin : a.id ∉ rest.map (fun x => x.id) := (List.nodup_cons.mp hnd).1
        intro hEq
        exact hnotin (hEq ▸ List.mem_map_of_mem (fun x => x.id) hmem')
      have hnd' := (List.nodup_cons.mp hnd).2
      have hwf' : ∀ d' ∈ rest, g (SyncService.stripMeta d') = d'.id :=
        fun d' hd' => hwf d' (List.mem_cons_of_mem a hd')
      by_cases hf : ((data.findIdx? (fun x => g x == a.id)).isNone) = true
      · rw [if_pos hf]
        apply ih (data ++ [SyncService.stripMeta a]) (n + 1) true hmem' hwf' hnd'
        intro x hx
        rcases List.mem_append.mp hx with hx | hx
        · exact hnodata x hx
        · rw [List.mem_singleton.mp hx, hwf a (List.mem_cons_self a rest)]
          exact hane
      · rw [if_neg hf]
        exact ih data n u hmem' hwf' hnd' hnodata

theorem runQuery_nodup {α : Type} (docs : List (SyncService.RemoteDoc α))
    (w : Nat) (h : (docs.map (fun d => d.id)).Nodup) :
    ((SyncService.runQuery docs w).map (fun d => d.id)).Nodup := by
  have hsub : (SyncService.runQuery docs w).Sublist docs := List.filter_sublist _
  exact h.sublist (hsub.map _)

theorem applySessionDocs_data (e : Env) (now : Nat) (st : Store)
    (docs : List (SyncService.RemoteDoc WorkoutSession))
    (hw : e.wfail .sessions = false)
    (hwf : ∀ d ∈ docs, d.body.id = d.id)
    (hnd : (docs.map (fun d => d.id)).Nodup) :
    (∃ tail, (Storage.getSessions (SyncService.applySessionDocs e now st docs).1 now).data =
      (Storage.getSessions st now).data ++ tail) ∧
    (∀ d ∈ docs, (∀ s ∈ (Storage.getSessions st now).data, s.id ≠ d.id) →
      SyncService.stripMeta d ∈
        (Storage.getSessions (SyncService.applySessionDocs e now st docs).1 now).data) := by
  simp only [SyncService.applySessionDocs]
  by_cases he : docs.isEmpty = true
  · rw [if_pos he]
    rw [List.isEmpty_iff] at he
    subst he
    exact ⟨⟨[], by simp⟩, by intro d hd; simp at hd⟩
  · rw [if_neg he]
    by_cases hfl : (SyncService.mergeRemoteDocs (fun s => s.id) docs
        (Storage.getSessions st now).data 0 false).2.2 = true
    · rw [if_pos hfl]
      have hget : (Storage.getSessions
          (Storage.setSessions e now st
            (SyncService.mergeRemoteDocs (fun s => s.id) docs
              (Storage.getSessions st now).data 0 false).1).1 now).data =
          (SyncService.mergeRemoteDocs (fun s => s.id) docs
            (Storage.getSessions st now).data 0 false).1 := by
        simp [Storage.setSessions, hw, Storage.getSessions]
      rw [hget]
      refine ⟨merge_extends _ docs _ 0 false, ?_⟩
      intro d hd hno
      exact (merge_insert _ d docs _ 0 false hd hwf hnd hno).1
    · rw [if_neg hfl]
      refine ⟨⟨[], by simp⟩, ?_⟩
      intro d hd hno
      exact absurd (merge_insert _ d docs _ 0 false hd hwf hnd hno).2 hfl

theorem applyTemplateDocs_data (e : Env) (now : Nat) (st : Store)
    (docs : List (SyncService.RemoteDoc Workout))
    (hw : e.wfail .templates = false)
    (hwf : ∀ d ∈ docs, d.body.id = d.id)
    (hnd : (docs.map (fun d => d.id)).Nodup) :
    (∃ tail, (Storage.getTemplates (SyncService.applyTemplateDocs e now st docs).1 now).data =
      (Storage.getTemplates st now).data ++ tail) ∧
    (∀ d ∈ docs, (∀ t ∈ (Storage.getTemplates st now).data, t.id ≠ d.id) →
      SyncService.stripMeta d ∈
        (Storage.getTemplates (SyncService.applyTemplateDocs e now st docs).1 now).data) := by
  simp only [SyncService.applyTemplateDocs]
  by_cases he : docs.isEmpty = true
  · rw [if_pos he]
    rw [List.isEmpty_iff] at he
    subst he
    exact ⟨⟨[], by simp⟩, by intro d hd; simp at hd⟩
  · rw [if_neg he]
    by_cases hfl : (SyncService.mergeRemoteDocs (fun t => t.id) docs
        (Storage.getTemplates st now).data 0 false).2.2 = true
    · rw [if_pos hfl]
      have hget : (Storage.getTemplates
          (Storage.setTemplates e now st
            (SyncService.mergeRemoteDocs (fun t => t.id) docs
              (Storage.getTemplates st now).data 0 false).1).1 now).data =
          (SyncService.mergeRemoteDocs (fun t => t.id) docs
            (Storage.getTemplates st now).data 0 false).1 := by
        simp [Storage.setTemplates, hw, Storage.getTemplates]
      rw [hget]
      refine ⟨merge_extends _ docs _ 0 false, ?_⟩
      intro d hd hno
      exact (merge_insert _ d docs _ 0 false hd hwf hnd hno).1
    · rw [if_neg hfl]
      refine ⟨⟨[], by simp⟩, ?_⟩
      intro d hd hno
      exact absurd (merge_insert _ d docs _ 0 false hd hwf hnd hno).2 hfl

theorem pullRemoteChanges_ok (e : Env) (now : Nat) (c : SyncService.SyncEnv)
    (r : SyncService.RemoteEnv) (st : Store)
    (hdb : c.dbPresent = true) (hcu' : c.currentUser.isNone = false)
    (hsq : r.sessionsQueryThrows = none) (htq : r.templatesQueryThrows = none) :
    SyncService.pullRemoteChanges e now c r st =
      { store := (SyncService.applyTemplateDocs e now
            (SyncService.applySessionDocs e now st
              (SyncService.runQuery r.sessionDocs
                (Storage.getLastSyncTimestamp st))).1
            (SyncService.runQuery r.templateDocs
              (Storage.getLastSyncTimestamp st))).1,
        downloaded :=
          (SyncService.applySessionDocs e now st
            (SyncService.runQuery r.sessionDocs
              (Storage.getLastSyncTimestamp st))).2 +
          (SyncService.applyTemplateDocs e now
            (SyncService.applySessionDocs e now st
              (SyncService.runQuery r.sessionDocs
                (Storage.getLastSyncTimestamp st))).1
            (SyncService.runQuery r.templateDocs
              (Storage.getLastSyncTimestamp st))).2,
        errors := [],
        queries := [(.sessions, Storage.getLastSyncTimestamp st),
                    (.templates, Storage.getLastSyncTimestamp st)] } := by
  simp [SyncService.pullRemoteChanges, SyncService.querySessions,
    SyncService.queryTemplates, hsq, htq, hdb, hcu']

/-- Claim C3: in the download phase, every locally present record survives
unchanged (the local lists are only extended, never rewritten), and every
returned document whose id matches no local record id is inserted with the
sync metadata stripped. -/
theorem download_no_overwrite (e : Env) (now : Nat) (c : SyncService.SyncEnv)
    (r : SyncService.RemoteEnv) (st : Store)
    (hdb : c.dbPresent = true) (hu : c.currentUser.isSome = true)
    (hws : e.wfail .sessions = false) (hwt : e.wfail .templates = false)
    (hsq : r.sessionsQueryThrows = none) (htq : r.templatesQueryThrows = none)
    (hswf : ∀ d ∈ r.sessionDocs, d.body.id = d.id)
    (hsnd : (r.sessionDocs.map (fun d => d.id)).Nodup)
    (htwf : ∀ d ∈ r.templateDocs, d.body.id = d.id)
    (htnd : (r.templateDocs.map (fun d => d.id)).Nodup) :
    (∃ tail, (Storage.getSessions (SyncService.pullRemoteChanges e now c r st).store now).data =
        (Storage.getSessions st now).data ++ tail) ∧
    (∀ d ∈ SyncService.runQuery r.sessionDocs (Storage.getLastSyncTimestamp st),
      (∀ s ∈ (Storage.getSessions st now).data, s.id ≠ d.id) →
        SyncService.stripMeta d ∈
          (Storage.getSessions (SyncService.pullRemoteChanges e now c r st).store now).data) ∧
    (∃ tail, (Storage.getTemplates (SyncService.pullRemoteChanges e now c r st).store now).data =
        (Storage.getTemplates st now).data ++ tail) ∧
    (∀ d ∈ SyncService.runQuery r.templateDocs (Storage.getLastSyncTimestamp st),
      (∀ t ∈ (Storage.getTemplates st now).data, t.id ≠ d.id) →
        SyncService.stripMeta d ∈
          (Storage.getTemplates (SyncService.pullRemoteChanges e now c r st).store now).data) := by
  have hcu' : c.currentUser.isNone = false := by
    rcases h : c.currentUser with _ | u
    · rw [h] at hu; simp at hu
    · rfl
  rw [pullRemoteChanges_ok e now c r st hdb hcu' hsq htq]
  have hswf' : ∀ d ∈ SyncService.runQuery r.sessionDocs
      (Storage.getLastSyncTimestamp st), d.body.id = d.id :=
    fun d hd => hswf d (List.mem_filter.mp hd).1
  have hsnd' := runQuery_nodup r.sessionDocs (Storage.getLastSyncTimestamp st) hsnd
  have htwf' : ∀ d ∈ SyncService.runQuery r.templateDocs
      (Storage.getLastSyncTimestamp st), d.body.id = d.id :=
    fun d hd => htwf d (List.mem_filter.mp hd).1
  have htnd' := runQuery_nodup r.templateDocs (Storage.getLastSyncTimestamp st) htnd
  have hS := applySessionDocs_data e now st
    (SyncService.runQuery r.sessionDocs (Storage.getLastSyncTimestamp st))
    hws hswf' hsnd'
  have hTshape := applyTemplateDocs_shape e now
    (SyncService.applySessionDocs e now st
      (SyncService.runQuery r.sessionDocs (Storage.getLastSyncTimestamp st))).1
    (SyncService.runQuery r.templateDocs (Storage.getLastSyncTimestamp st))
  have hSessEq : Storage.getSessions
      (SyncService.applyTemplateDocs e now
        (SyncService.applySessionDocs e now st
          (SyncService.runQuery r.sessionDocs (Storage.getLastSyncTimestamp st))).1
        (SyncService.runQuery r.templateDocs (Storage.getLastSyncTimestamp st))).1 now =
      Storage.getSessions
        (SyncService.applySessionDocs e now st
          (SyncService.runQuery r.sessionDocs (Storage.getLastSyncTimestamp st))).1 now := by
    simp only [Storage.getSessions, hTshape.2.2.1]
  have hSshape := applySessionDocs_shape e now st
    (SyncService.runQuery r.sessionDocs (Storage.getLastSyncTimestamp st))
  have hTempEq : Storage.getTemplates
      (SyncService.applySessionDocs e now st
        (SyncService.runQuery r.sessionDocs (Storage.getLastSyncTimestamp st))).1 now =
      Storage.getTemplates st now := by
    simp only [Storage.getTemplates, hSshape.2.2.1]
  have hT := applyTemplateDocs_data e now
    (SyncService.applySessionDocs e now st
      (SyncService.runQuery r.sessionDocs (Storage.getLastSyncTimestamp st))).1
    (SyncService.runQuery r.templateDocs (Storage.getLastSyncTimestamp st))
    hwt htwf' htnd'
  refine ⟨?_, ?_, ?_, ?_⟩
  · rw [hSessEq]; exact hS.1
  · intro d hd hno
    rw [hSessEq]
    exact hS.2 d hd hno
  · rw [hTempEq] at hT
    exact hT.1
  · intro d hd hno
    rw [hTempEq] at hT
    exact hT.2 d hd hno

theorem download_no_overwrite_witness :
    (∃ tail, (Storage.getSessions
        (SyncService.pullRemoteChanges noFail 100 onlineEnv sampleRemote
          sampleLocalStore).store 100).data =
      (Storage.getSessions sampleLocalStore 100).data ++ tail) ∧
    (∀ d ∈ SyncService.runQuery sampleRemote.sessionDocs
        (Storage.getLastSyncTimestamp sampleLocalStore),
      (∀ s ∈ (Storage.getSessions sampleLocalStore 100).data, s.id ≠ d.id) →
        SyncService.stripMeta d ∈
          (Storage.getSessions (SyncService.pullRemoteChanges noFail 100
            onlineEnv sampleRemote sampleLocalStore).store 100).data) ∧
    (∃ tail, (Storage.getTemplates
        (SyncService.pullRemoteChanges noFail 100 onlineEnv sampleRemote
          sampleLocalStore).store 100).data =
      (Storage.getTemplates sampleLocalStore 100).data ++ tail) ∧
    (∀ d ∈ SyncService.runQuery sampleRemote.templateDocs
        (Storage.getLastSyncTimestamp sampleLocalStore),
      (∀ t ∈ (Storage.getTemplates sampleLocalStore 100).data, t.id ≠ d.id) →
        SyncService.stripMeta d ∈
          (Storage.getTemplates (SyncService.pullRemoteChanges noFail 100
            onlineEnv sampleRemote sampleLocalStore).store 100).data) :=
  download_no_overwrite noFail 100 onlineEnv sampleRemote sampleLocalStore
    rfl rfl rfl rfl rfl rfl (by decide) (by decide) (by decide) (by decide)

/-! Upload-phase retry bookkeeping: lemmas tracking one queue item by id
through a cycle. -/

theorem filter_id_filter_ne (x y : String) (hxy : x ≠ y)
    (l : List SyncQueueItem) :
    ((l.filter (fun it => it.id != y)).filter (fun it => it.id == x)) =
      l.filter (fun it => it.id == x) := by
  induction l with
  | nil => rfl
  | cons a rest ih =>
    by_cases ha : a.id = x
    · have h1 : (a.id != y) = true := by simp [ha, hxy]
      have h2 : (a.id == x) = true := by simp [ha]
      simp [List.filter_cons, h1, h2, ih]
    · have h2 : (a.id == x) = false := by simp [ha]
      by_cases hb : (a.id != y) = true
      · simp [List.filter_cons, hb, h2, ih]
      · simp only [Bool.not_eq_true] at hb
        simp [List.filter_cons, hb, h2, ih]

theorem filter_id_remove_self (x : String) (l : List SyncQueueItem) :
    (l.filter (fun it => it.id != x)).filter (fun it => it.id == x) = [] := by
  rw [List.filter_eq_nil_iff]
  intro a ha
  have := (List.mem_filter.mp ha).2
  simp only [bne_iff_ne] at this
  simp [this]

theorem getSyncQueue_removeFromSyncQueue (e : Env) (st : Store) (i : String) :
    Storage.getSyncQueue (Storage.removeFromSyncQueue e st i).1 =
      if e.wfail .syncQueue then Storage.getSyncQueue st
      else (Storage.getSyncQueue st).filter (fun it => it.id != i) := by
  unfold Storage.removeFromSyncQueue
  exact getSyncQueue_setSyncQueue e st _

theorem updateFirst_preserve (x y : String) (hxy : x ≠ y)
    (patch : SyncQueueItem → SyncQueueItem)
    (hid : ∀ it, (patch it).id = it.id) :
    ∀ (l l' : List SyncQueueItem),
      Storage.updateFirstQueueItem y patch l = some l' →
      l'.filter (fun it => it.id == x) = l.filter (fun it => it.id == x) := by
  intro l
  induction l with
  | nil => intro l' h; simp [Storage.updateFirstQueueItem] at h
  | cons a rest ih =>
    intro l' h
    simp only [Storage.updateFirstQueueItem] at h
    by_cases ha : (a.id == y) = true
    · rw [if_pos ha] at h
      cases h
      have hay : a.id = y := by simpa using ha
      have hax : (a.id == x) = false := by simp [hay, Ne.symm hxy]
      have hpx : ((patch a).id == x) = false := by rw [hid a]; exact hax
      simp [List.filter_cons, hax, hpx]
    · rw [if_neg ha, Option.map_eq_some'] at h
      obtain ⟨l'', h'', rfl⟩ := h
      simp [List.filter_cons, ih l'' h'']

theorem updateFirst_self (x : String) (patch : SyncQueueItem → SyncQueueItem)
    (hid : ∀ it, (patch it).id = it.id) (item : SyncQueueItem) :
    ∀ (l : List SyncQueueItem),
      l.filter (fun i => i.id == x) = [item] →
      ∃ l', Storage.updateFirstQueueItem x patch l = some l' ∧
        l'.filter (fun i => i.id == x) = [patch item] := by
  intro l
  induction l with
  | nil => intro h; simp at h
  | cons a rest ih =>
    intro h
    by_cases ha : (a.id == x) = true
    · rw [List.filter_cons, if_pos ha] at h
      have heq : a = item := by
        have := List.head_eq_of_cons_eq h
        exact this
      have hrest : rest.filter (fun i => i.id == x) = [] :=
        List.tail_eq_of_cons_eq h
      refine ⟨patch a :: rest, ?_, ?_⟩
      · simp only [Storage.updateFirstQueueItem, ha, if_true]
      · have hpa : ((patch a).id == x) = true := by rw [hid a]; exact ha
        rw [List.filter_cons, if_pos hpa, hrest, heq]
    · rw [List.filter_cons, if_neg ha] at h
      obtain ⟨l', hl', hf⟩ := ih h
      refine ⟨a :: l', ?_, ?_⟩
      · simp only [Storage.updateFirstQueueItem]
        rw [if_neg ha, hl']
        rfl
      · rw [List.filter_cons, if_neg ha, hf]

theorem mem_single_filter (item : SyncQueueItem) :
    ∀ (l : List SyncQueueItem), item ∈ l →
      ((l.map (fun it => it.id)).Nodup) →
      l.filter (fun it => it.id == item.id) = [item] := by
  intro l
  induction l with
  | nil => intro hmem; simp at hmem
  | cons a rest ih =>
    intro hmem hnd
    rcases List.mem_cons.mp hmem with rfl | hmem'
    · have hrest : rest.filter (fun it => it.id == item.id) = [] := by
        rw [List.filter_eq_nil_iff]
        intro b hb hbid
        have hnotin : item.id ∉ rest.map (fun it => it.id) :=
          (List.nodup_cons.mp (by simpa using hnd)).1
        have : b.id = item.id := by simpa using hbid
        exact hnotin (this ▸ List.mem_map_of_mem (fun it => it.id) hb)
      rw [List.filter_cons, if_pos (by simp), hrest]
    · have hane : (a.id == item.id) = false := by
        have hnotin : a.id ∉ rest.map (fun it => it.id) :=
          (List.nodup_cons.mp (by simpa using hnd)).1
        have : a.id ≠ item.id := by
          intro hEq
          exact hnotin (hEq ▸ List.mem_map_of_mem (fun it => it.id) hmem')
        simp [this]
      rw [List.filter_cons, if_neg (by simp [hane])]
      exact ih hmem' (List.nodup_cons.mp (by simpa using hnd)).2

theorem processQueueAux_errors_extend (e : Env) (c : SyncService.SyncEnv)
    (up : SyncQueueItem → Option String) :
    ∀ (l : List SyncQueueItem) (st : Store) (u : Nat) (errs : List SyncError)
      (atts : List SyncQueueItem),
      ∃ t, (SyncService.processQueueAux e c up l st u errs atts).errors =
        errs ++ t := by
  intro l
  induction l with
  | nil => intro st u errs atts; exact ⟨[], by simp [SyncService.processQueueAux]⟩
  | cons a rest ih =>
    intro st u errs atts
    rw [processQueueAux_cons]
    by_cases hr : (SyncService.processSyncItem c up a).1 = true
    · rw [if_pos hr]; exact ih _ _ _ _
    · rw [if_neg hr]
      by_cases hm : SyncService.MAX_RETRY_COUNT ≤ a.retryCount + 1
      · rw [if_pos hm]
        obtain ⟨t, ht⟩ := ih (Storage.removeFromSyncQueue e st a.id).1 u
          (errs ++ [{ collection := a.collection, documentId := a.documentId,
                      message := (SyncService.processSyncItem c up a).2.getD
                        "Max retries exceeded",
                      retryable := false }]) (atts ++ [a])
        exact ⟨_, by rw [ht, List.append_assoc]⟩
      · rw [if_neg hm]
        obtain ⟨t, ht⟩ := ih
          (Storage.updateSyncQueueItem e st a.id
            (fun it => { it with retryCount := a.retryCount + 1 })).1 u
          (errs ++ [{ collection := a.collection, documentId := a.documentId,
                      message := (SyncService.processSyncItem c up a).2.getD
                        "Sync failed",
                      retryable := true }]) (atts ++ [a])
        exact ⟨_, by rw [ht, List.append_assoc]⟩

theorem processQueueAux_filter_preserve (e : Env) (c : SyncService.SyncEnv)
    (up : SyncQueueItem → Option String) (x : String) :
    ∀ (l : List SyncQueueItem) (st : Store) (u : Nat) (errs : List SyncError)
      (atts : List SyncQueueItem),
      (∀ z ∈ l, z.id ≠ x) →
      (Storage.getSyncQueue
          (SyncService.processQueueAux e c up l st u errs atts).store).filter
        (fun it => it.id == x) =
      (Storage.getSyncQueue st).filter (fun it => it.id == x) := by
  intro l
  induction l with
  | nil => intro st u errs atts _; simp [SyncService.processQueueAux]
  | cons a rest ih =>
    intro st u errs atts hz
    have hax : a.id ≠ x := hz a (List.mem_cons_self a rest)
    have hzrest : ∀ z ∈ rest, z.id ≠ x :=
      fun z hz' => hz z (List.mem_cons_of_mem a hz')
    have hremove : (Storage.getSyncQueue
        (Storage.removeFromSyncQueue e st a.id).1).filter
          (fun it => it.id == x) =
        (Storage.getSyncQueue st).filter (fun it => it.id == x) := by
      rw [getSyncQueue_removeFromSyncQueue]
      by_cases hwq : e.wfail .syncQueue
      · rw [if_pos hwq]
      · rw [if_neg hwq]
        exact filter_id_filter_ne x a.id (Ne.symm hax) _
    have hupdate : (Storage.getSyncQueue
        (Storage.updateSyncQueueItem e st a.id
          (fun it => { it with retryCount := a.retryCount + 1 })).1).filter
          (fun it => it.id == x) =
        (Storage.getSyncQueue st).filter (fun it => it.id == x) := by
      unfold Storage.updateSyncQueueItem
      cases hu : Storage.updateFirstQueueItem a.id
          (fun it => { it with retryCount := a.retryCount + 1 })
          (Storage.getSyncQueue st) with
      | none => rfl
      | some q' =>
        rw [getSyncQueue_setSyncQueue]
        by_cases hwq : e.wfail .syncQueue
        · rw [if_pos hwq]
        · rw [if_neg hwq]
          exact updateFirst_preserve x a.id (Ne.symm hax)
            (fun it => { it with retryCount := a.retryCount + 1 })
            (fun it => rfl) _ q' hu
    rw [processQueueAux_cons]
    by_cases hr : (SyncService.processSyncItem c up a).1 = true
    · rw [if_pos hr, ih _ _ _ _ hzrest, hremove]
    · rw [if_neg hr]
      by_cases hm : SyncService.MAX_RETRY_COUNT ≤ a.retryCount + 1
      · rw [if_pos hm, ih _ _ _ _ hzrest, hremove]
      · rw [if_neg hm, ih _ _ _ _ hzrest, hupdate]

theorem processQueueAux_item_spec (e : Env) (c : SyncService.SyncEnv)
    (up : SyncQueueItem → Option String) (item : SyncQueueItem)
    (hq : e.wfail .syncQueue = false)
    (hfail : (SyncService.processSyncItem c up item).1 = false) :
    ∀ (l : List SyncQueueItem) (st : Store) (u : Nat) (errs : List SyncError)
      (atts : List SyncQueueItem),
      item ∈ l → ((l.map (fun it => it.id)).Nodup) →
      (Storage.getSyncQueue st).filter (fun it => it.id == item.id) = [item] →
      (SyncService.MAX_RETRY_COUNT ≤ item.retryCount + 1 →
        (Storage.getSyncQueue
            (SyncService.processQueueAux e c up l st u errs atts).store).filter
          (fun it => it.id == item.id) = [] ∧
        ∃ msg, SyncError.mk item.collection item.documentId msg false ∈
          (SyncService.processQueueAux e c up l st u errs atts).errors) ∧
      (item.retryCount + 1 < SyncService.MAX_RETRY_COUNT →
        (Storage.getSyncQueue
            (SyncService.processQueueAux e c up l st u errs atts).store).filter
          (fun it => it.id == item.id) =
          [{ item with retryCount := item.retryCount + 1 }] ∧
        ∃ msg, SyncError.mk item.collection item.documentId msg true ∈
          (SyncService.processQueueAux e c up l st u errs atts).errors) := by
  intro l
  induction l with
  | nil => intro st u errs atts hmem; simp at hmem
  | cons a rest ih =>
    intro st u errs atts hmem hnd hfilter
    rw [processQueueAux_cons]
    rcases List.mem_cons.mp hmem with rfl | hmem'
    · -- the head of the snapshot is the tracked item, whose upload fails
      have hzrest : ∀ z ∈ rest, z.id ≠ item.id := by
        intro z hz' hEq
        have hnotin : item.id ∉ rest.map (fun it => it.id) :=
          (List.nodup_cons.mp (by simpa using hnd)).1
        exact hnotin (hEq ▸ List.mem_map_of_mem (fun it => it.id) hz')
      have hfc : ¬ ((SyncService.processSyncItem c up item).1 = true) := by
        simp [hfail]
      rw [if_neg hfc]
      by_cases hm : SyncService.MAX_RETRY_COUNT ≤ item.retryCount + 1
      · rw [if_pos hm]
        constructor
        · intro _
          constructor
          · rw [processQueueAux_filter_preserve e c up item.id rest _ _ _ _ hzrest,
              getSyncQueue_removeFromSyncQueue, if_neg (by simp [hq])]
            exact filter_id_remove_self item.id _
          · obtain ⟨t, ht⟩ := processQueueAux_errors_extend e c up rest
              (Storage.removeFromSyncQueue e st item.id).1 u
              (errs ++ [{ collection := item.collection,
                          documentId := item.documentId,
                          message := (SyncService.processSyncItem c up item).2.getD
                            "Max retries exceeded",
                          retryable := false }]) (atts ++ [item])
            exact ⟨(SyncService.processSyncItem c up item).2.getD
              "Max retries exceeded", by rw [ht]; simp⟩
        · intro hlt
          exact absurd hm (not_le.mpr hlt)
      · rw [if_neg hm]
        constructor
        · intro hge
          exact absurd hge hm
        · intro _
          constructor
          · obtain ⟨q', hq', hfq⟩ := updateFirst_self item.id
              (fun it => { it with retryCount := item.retryCount + 1 })
              (fun it => rfl) item _ hfilter
            have hstore : Storage.getSyncQueue
                (Storage.updateSyncQueueItem e st item.id
                  (fun it => { it with retryCount := item.retryCount + 1 })).1 = q' := by
              unfold Storage.updateSyncQueueItem
              rw [hq', getSyncQueue_setSyncQueue, if_neg (by simp [hq])]
            rw [processQueueAux_filter_preserve e c up item.id rest _ _ _ _ hzrest,
              hstore, hfq]
          · obtain ⟨t, ht⟩ := processQueueAux_errors_extend e c up rest
              (Storage.updateSyncQueueItem e st item.id
                (fun it => { it with retryCount := item.retryCount + 1 })).1 u
              (errs ++ [{ collection := item.collection,
                          documentId := item.documentId,
                          message := (SyncService.processSyncItem c up item).2.getD
                            "Sync failed",
                          retryable := true }]) (atts ++ [item])
            exact ⟨(SyncService.processSyncItem c up item).2.getD "Sync failed",
              by rw [ht]; simp⟩
    · -- the head is a different item: the tracked item's queue entry is kept
      have haid : a.id ≠ item.id := by
        intro hEq
        have hnotin : a.id ∉ rest.map (fun it => it.id) :=
          (List.nodup_cons.mp (by simpa using hnd)).1
        exact hnotin (hEq ▸ List.mem_map_of_mem (fun it => it.id) hmem')
      have hnd' : ((rest.map (fun it => it.id)).Nodup) :=
        (List.nodup_cons.mp (by simpa using hnd)).2
      have hremove : (Storage.getSyncQueue
          (Storage.removeFromSyncQueue e st a.id).1).filter
            (fun it => it.id == item.id) = [item] := by
        rw [getSyncQueue_removeFromSyncQueue, if_neg (by simp [hq]),
          filter_id_filter_ne item.id a.id (Ne.symm haid), hfilter]
      have hupdate : (Storage.getSyncQueue
          (Storage.updateSyncQueueItem e st a.id
            (fun it => { it with retryCount := a.retryCount + 1 })).1).filter
            (fun it => it.id == item.id) = [item] := by
        unfold Storage.updateSyncQueueItem
        cases hu : Storage.updateFirstQueueItem a.id
            (fun it => { it with retryCount := a.retryCount + 1 })
            (Storage.getSyncQueue st) with
        | none => exact hfilter
        | some q' =>
          rw [getSyncQueue_setSyncQueue, if_neg (by simp [hq]),
            updateFirst_preserve item.id a.id (Ne.symm haid)
              (fun it => { it with retryCount := a.retryCount + 1 })
              (fun it => rfl) _ q' hu, hfilter]
      by_cases hr : (SyncService.processSyncItem c up a).1 = true
      · rw [if_pos hr]
        exact ih _ _ _ _ hmem' hnd' hremove
      · rw [if_neg hr]
        by_cases hm : SyncService.MAX_RETRY_COUNT ≤ a.retryCount + 1
        · rw [if_pos hm]
          exact ih _ _ _ _ hmem' hnd' hremove
        · rw [if_neg hm]
          exact ih _ _ _ _ hmem' hnd' hupdate

/-- Claim C1: when an item's upload fails during a cycle, its retryCount is
incremented; reaching the ceiling of 5 removes it from the queue and
reports a non-retryable error, otherwise the incremented count is persisted
in the queue and a retryable error is reported. In particular, a single
item failing 5 consecutive cycles from retryCount 0 is gone from the queue
after the 5th cycle, which reports it with retryable false. -/
theorem upload_retry_policy (e : Env) (c : SyncService.SyncEnv)
    (up : SyncQueueItem → Option String) (st : Store) (item : SyncQueueItem)
    (hq : e.wfail .syncQueue = false)
    (hmem : item ∈ Storage.getSyncQueue st)
    (hnodup : (((Storage.getSyncQueue st).map (fun it => it.id)).Nodup))
    (hfail : (SyncService.processSyncItem c up item).1 = false) :
    (SyncService.MAX_RETRY_COUNT ≤ item.retryCount + 1 →
      (∀ it ∈ Storage.getSyncQueue (SyncService.processQueue e c up st).store,
        it.id ≠ item.id) ∧
      ∃ msg, SyncError.mk item.collection item.documentId msg false ∈
        (SyncService.processQueue e c up st).errors) ∧
    (item.retryCount + 1 < SyncService.MAX_RETRY_COUNT →
      ({ item with retryCount := item.retryCount + 1 } ∈
        Storage.getSyncQueue (SyncService.processQueue e c up st).store) ∧
      ∃ msg, SyncError.mk item.collection item.documentId msg true ∈
        (SyncService.processQueue e c up st).errors) ∧
    (Storage.getSyncQueue
        (cycleStep (cycleStep (cycleStep (cycleStep (cycleStep
          scenarioQueueStore))))) = [] ∧
      SyncError.mk .templates "t1" "network down" false ∈
        (SyncService.processQueue noFail onlineEnv alwaysFailUpload
          (cycleStep (cycleStep (cycleStep (cycleStep
            scenarioQueueStore))))).errors) := by
  have hne : ¬ ((Storage.getSyncQueue st).isEmpty = true) := by
    cases hql : Storage.getSyncQueue st with
    | nil => rw [hql] at hmem; simp at hmem
    | cons b q => simp [hql]
  have hfilter := mem_single_filter item _ hmem hnodup
  have hpq : SyncService.processQueue e c up st =
      SyncService.processQueueAux e c up (Storage.getSyncQueue st) st 0 [] [] := by
    unfold SyncService.processQueue
    rw [if_neg hne]
  have hspec := processQueueAux_item_spec e c up item hq hfail
    (Storage.getSyncQueue st) st 0 [] [] hmem hnodup hfilter
  rw [hpq]
  refine ⟨?_, ?_, by decide⟩
  · intro h5
    obtain ⟨hf, herr⟩ := hspec.1 h5
    refine ⟨?_, herr⟩
    intro it hit hid
    have hmemf : it ∈ (Storage.getSyncQueue
        (SyncService.processQueueAux e c up (Storage.getSyncQueue st) st 0 []
          []).store).filter (fun i => i.id == item.id) :=
      List.mem_filter.mpr ⟨hit, by simp [hid]⟩
    rw [hf] at hmemf
    simp at hmemf
  · intro hlt
    obtain ⟨hf, herr⟩ := hspec.2 hlt
    refine ⟨?_, herr⟩
    have hmemf : { item with retryCount := item.retryCount + 1 } ∈
        (Storage.getSyncQueue
          (SyncService.processQueueAux e c up (Storage.getSyncQueue st) st 0 []
            []).store).filter (fun i => i.id == item.id) := by
      rw [hf]
      simp
    exact (List.mem_filter.mp hmemf).1

theorem upload_retry_policy_witness :
    ({ scenarioItem with retryCount := 1 } ∈
      Storage.getSyncQueue (SyncService.processQueue noFail onlineEnv
        alwaysFailUpload scenarioQueueStore).store) ∧
    ∃ msg, SyncError.mk .templates "t1" msg true ∈
      (SyncService.processQueue noFail onlineEnv alwaysFailUpload
        scenarioQueueStore).errors :=
  (upload_retry_policy noFail onlineEnv alwaysFailUpload scenarioQueueStore
    scenarioItem rfl (by decide) (by decide) (by decide)).2.1 (by decide)

end Phit
